import Mathlib

/-!
# PulseProof risk engine — verification development

A shallow embedding of the PulseProof risk-assessment core:

* `agents/shared/enhanced_risk_engine.py` — the `EnhancedRiskEngine` class:
  the five factor analyzers, the weighted combination
  (`_calculate_weighted_risk_score`), the recommendation rule
  (`_generate_recommendation`), the approval analysis
  (`_analyze_approval_risk` / `_is_unlimited_approval`), the TTL-gated
  caches (`_calculate_usd_value`, `_get_token_price`,
  `_check_address_reputation`, `_get_historical_behavior`), and the
  top-level `assess_comprehensive_risk` with its outer exception handler.
* `agents/shared/config.py` — the default configuration constants.
* `agents-reasoning/red_agent/risk_engine.py` — `RiskEngine.analyze_financial_impact`
  (the metadata path with the zero-address and approval score bonuses).
* `agents/master_orchestrator/phase2_orchestrator.py` — the delegation
  control flow of `analyze_events_endpoint`, `delegate_to_event_analyzer`
  and `delegate_to_risk_assessor`.

Modelling conventions:

* Python floats are modelled exactly over `ℚ`; every score constant in the
  source is a short decimal literal, rendered here as the same rational.
* Token amounts are `Nat` (they come from uint256 blockchain words).
* Network calls and the wall clock are parameters ("oracles"): each
  analyzer takes its externally fetched data as an argument, wrapped in
  `AnalyzerRun` so a Python exception inside an analyzer's `try` block is
  the explicit `raised` constructor, mapped to the analyzer's `except`
  branch exactly as in the source.
* Python `dict` iteration order is insertion order; lists of
  `(RiskCategory × FactorResult)` pairs below are built in the source's
  insertion order (financial, behavioral, reputation, historical,
  approval), so `max(..., key=...)` over `dict.items()` is a left fold
  that keeps the earliest maximum.
* `list(set(all_factors))` has unspecified order in Python; the embedding
  uses `eraseDups` (none of the proved properties depends on the order).
-/

namespace PulseProof

/-- `EventType` enum from `agents/shared/models.py`. -/
inductive EventType where
  | transfer | approval | swap | flashLoan | permit | unknown
deriving DecidableEq, Repr

/-- `RiskCategory` enum from `agents/shared/enhanced_risk_engine.py`. -/
inductive RiskCategory where
  | financialImpact | behavioralAnomaly | reputationRisk | historicalContext | approvalRisk
deriving DecidableEq, Repr

/-- The per-analyzer result dict `{'score': ..., 'confidence': ..., 'factors': [...]}`
returned by every `_analyze_*` / `_detect_*` / `_assess_*` method.
The free-form extra keys (`usd_value`, `anomalies_detected`, ...) are not
consumed by the combination logic and are omitted. -/
structure FactorResult where
  score : ℚ
  confidence : ℚ
  factors : List String
deriving DecidableEq, Repr

namespace Config

/-- `Config.MIN_CONFIDENCE` default `0.6` (`agents/shared/config.py`). -/
def minConfidence : ℚ := 6/10

/-- `Config.HIGH_RISK_THRESHOLD` default `0.7`. -/
def highRiskThreshold : ℚ := 7/10

/-- `Config.CRITICAL_RISK_THRESHOLD` default `0.9`. -/
def criticalRiskThreshold : ℚ := 9/10

/-- `Config.CRITICAL_FINANCIAL_THRESHOLD` default `$1M`. -/
def criticalFinancialThreshold : ℚ := 1000000

/-- `Config.HIGH_FINANCIAL_THRESHOLD` default `$100K`. -/
def highFinancialThreshold : ℚ := 100000

/-- `Config.MEDIUM_FINANCIAL_THRESHOLD` default `$10K`. -/
def mediumFinancialThreshold : ℚ := 10000

/-- `Config.LOW_FINANCIAL_THRESHOLD` default `$1K`. -/
def lowFinancialThreshold : ℚ := 1000

/-- `Config.RISK_WEIGHTS` defaults, keyed by category as in
`EnhancedRiskEngine.__init__` (`self.risk_weights`). -/
def riskWeights : RiskCategory → ℚ
  | .financialImpact => 35/100
  | .behavioralAnomaly => 25/100
  | .reputationRisk => 20/100
  | .historicalContext => 15/100
  | .approvalRisk => 5/100

end Config

/-- `_generate_recommendation(risk_score, confidence)` from
`enhanced_risk_engine.py` lines 817-830, with the default thresholds. -/
def generateRecommendation (riskScore confidence : ℚ) : String :=
  if confidence < Config.minConfidence then "MONITOR"
  else if riskScore ≥ Config.criticalRiskThreshold then "CRITICAL_INVESTIGATION"
  else if riskScore ≥ Config.highRiskThreshold then "IMMEDIATE_INVESTIGATION"
  else if riskScore ≥ 1/2 then "INVESTIGATE"
  else "MONITOR"

/-- `_calculate_weighted_risk_score(risk_components)` lines 802-815:
`total_score / max(total_weight, 0.001)`. -/
def calculateWeightedRiskScore (comps : List (RiskCategory × FactorResult)) : ℚ :=
  let totalScore := (comps.map (fun p => p.2.score * Config.riskWeights p.1)).sum
  let totalWeight := (comps.map (fun p => Config.riskWeights p.1)).sum
  totalScore / max totalWeight (1/1000)

/-- Outcome of running one analyzer body: either the fetched external data
needed by the happy path, or a Python exception (`raised msg`) somewhere in
the analyzer's `try` block, which the analyzer's `except` clause turns into
a degraded result. -/
inductive AnalyzerRun (α : Type) where
  | ok (val : α)
  | raised (msg : String)
deriving DecidableEq, Repr

/-- The common `except` result of every analyzer:
`{'score': 0.3, 'confidence': 0.3, 'factors': [f'Analysis error: {str(e)}']}`. -/
def analysisErrorResult (msg : String) : FactorResult :=
  ⟨3/10, 3/10, ["Analysis error: " ++ msg]⟩

/-- The parts of a `ProcessedEvent` (`agents/shared/models.py`) consumed by
the risk engine: `event_type`, `contract_address`, and the `parsed_data`
entries `amount`, `approval_amount` and `from_address` (a missing
`from_address` key and `parsed_data.get('from_address', '')` both yield
`""`, so it is a plain `String`). -/
structure EventData where
  eventType : EventType
  contractAddress : String
  amount : Option Nat
  approvalAmount : Option Nat
  fromAddress : String
deriving DecidableEq, Repr

/-! ### Financial impact (`_analyze_financial_impact`, lines 181-229) -/

/-- The USD-value bucket ladder of `_analyze_financial_impact`. -/
def financialTier (usdValue : ℚ) : FactorResult :=
  if usdValue ≥ Config.criticalFinancialThreshold then ⟨1, 9/10, ["CRITICAL_FINANCIAL_IMPACT"]⟩
  else if usdValue ≥ Config.highFinancialThreshold then ⟨8/10, 8/10, ["HIGH_FINANCIAL_IMPACT"]⟩
  else if usdValue ≥ Config.mediumFinancialThreshold then ⟨6/10, 7/10, ["MEDIUM_FINANCIAL_IMPACT"]⟩
  else if usdValue ≥ Config.lowFinancialThreshold then ⟨4/10, 6/10, ["LOW_FINANCIAL_IMPACT"]⟩
  else ⟨2/10, 5/10, ["MINIMAL_FINANCIAL_IMPACT"]⟩

/-- `_analyze_financial_impact(event)`: the external input is the USD value
produced by `_calculate_usd_value` (which itself never throws — see
`calculateUsdValue` below). -/
def analyzeFinancialImpact (ev : EventData) (run : AnalyzerRun ℚ) : FactorResult :=
  match run with
  | .raised m => analysisErrorResult m
  | .ok usd =>
    match ev.amount with
    | none => ⟨3/10, 3/10, ["NO_AMOUNT_DATA"]⟩
    | some _ => financialTier usd

/-! ### Behavioral anomalies (`_detect_behavioral_anomalies`, lines 300-338,
and `_calculate_anomaly_score`, lines 429-489) -/

/-- The historical-behavior summary dict built by `_get_historical_behavior`
(lines 339-415). `transactionsTo` stands for the `'transactions'` list,
keeping each transaction's `tx.get('to', '')` — the only field of the raw
transactions consumed by `_calculate_anomaly_score` (as a set) and by
`_calculate_anomaly_confidence` (as a length). The summary fields are kept
independent inputs here; the real fetcher derives them from the same
transaction list, a special case of this quantification. -/
structure HistSummary where
  averageValue : ℚ
  transactionCount : Nat
  uniqueContracts : Nat
  transactionsTo : List String
  firstSeen : Option ℚ
  frequencyPerDay : ℚ
  totalValue : ℚ
deriving DecidableEq, Repr

/-- Step 1 of `_calculate_anomaly_score`: the value-ratio ladder (only the
first matching tier is applied; no contribution when there is no positive
historical average). -/
def anomalyValueScore (avg curValue : ℚ) : ℚ :=
  if avg > 0 then
    if curValue / avg > 1000 then 9/10
    else if curValue / avg > 100 then 7/10
    else if curValue / avg > 10 then 5/10
    else if curValue / avg > 2 then 2/10
    else 0
  else 0

/-- Step 2: new-contract interaction bonus. `contracts` is the set
`{tx.get('to','') | tx ∈ transactions}`; it is nonempty iff the transaction
list is nonempty. -/
def anomalyContractScore (contracts : List String) (curContract : String) : ℚ :=
  if curContract ≠ "" ∧ curContract ∉ contracts then
    if contracts.length > 0 then 3/10 else 1/10
  else 0

/-- Step 3: frequency bonus. In the source this reads `value_ratio`, which
is only assigned when `average_value > 0`; the guard here is the reachable
case (the unbound-name case is the `NameError` exit of
`calcAnomalyScore`). `freq > 0 and freq > 10` collapses to `freq > 10`. -/
def anomalyFreqScore (freq avg curValue : ℚ) : ℚ :=
  if freq > 10 ∧ avg > 0 ∧ curValue / avg > 10 then 2/10 else 0

/-- Step 4: account-age bonus (`first_seen` present; outer `if/elif` on the
age, inner check on the absolute current value in wei). -/
def anomalyAgeScore (firstSeen : Option ℚ) (nowTs curValue : ℚ) : ℚ :=
  match firstSeen with
  | none => 0
  | some fs =>
    let ageDays := (nowTs - fs) / 86400
    if ageDays < 1 then (if curValue > 10^18 then 4/10 else 0)
    else if ageDays < 7 then (if curValue > 10^19 then 3/10 else 0)
    else 0

/-- Step 5: transaction-count bonus, again reading `value_ratio` in the
`count < 5` branch (reachable case only; see `calcAnomalyScore`). -/
def anomalyCountScore (count : Nat) (avg curValue : ℚ) : ℚ :=
  if count = 0 then (if curValue > 10^18 then 5/10 else 0)
  else if count < 5 ∧ avg > 0 ∧ curValue / avg > 50 then 3/10 else 0

/-- `_calculate_anomaly_score(historical, current)`. The two `error` exits
are the `NameError` raised when the source evaluates `value_ratio` without
it having been assigned (`average_value ≤ 0`): step 3 raises when
`frequency_per_day > 10`, step 5 when `0 < transaction_count < 5`. The
caller's `except` turns these into the degraded 0.3/0.3 result. -/
def calcAnomalyScore (hist : HistSummary) (curValue : ℚ) (curContract : String)
    (nowTs : ℚ) : Except String ℚ :=
  if hist.frequencyPerDay > 10 ∧ ¬ hist.averageValue > 0 then
    .error "name value_ratio is not defined"
  else if hist.transactionCount ≠ 0 ∧ hist.transactionCount < 5 ∧ ¬ hist.averageValue > 0 then
    .error "name value_ratio is not defined"
  else
    .ok (min (anomalyValueScore hist.averageValue curValue
        + anomalyContractScore hist.transactionsTo curContract
        + anomalyFreqScore hist.frequencyPerDay hist.averageValue curValue
        + anomalyAgeScore hist.firstSeen nowTs curValue
        + anomalyCountScore hist.transactionCount hist.averageValue curValue) 1)

/-- `_calculate_anomaly_confidence(anomaly_score, historical_data_points)`
(lines 491-506). -/
def calcAnomalyConfidence (anomalyScore : ℚ) (historicalDataPoints : Nat) : ℚ :=
  let baseConfidence := anomalyScore * (8/10)
  let dataQualityFactor : ℚ :=
    if historicalDataPoints > 50 then 1
    else if historicalDataPoints > 10 then 7/10
    else if historicalDataPoints > 0 then 4/10
    else 1/10
  min (baseConfidence * dataQualityFactor) 1

/-- `_detect_behavioral_anomalies(event)`: external inputs are the
historical summary and the current wall-clock timestamp. The current value
is `parsed_data.get('amount', 0)` (via `_extract_behavioral_features`) and
the current contract is `event.contract_address`. -/
def detectBehavioralAnomalies (ev : EventData) (run : AnalyzerRun (HistSummary × ℚ)) :
    FactorResult :=
  if ev.fromAddress = "" then ⟨3/10, 3/10, ["NO_FROM_ADDRESS"]⟩
  else
    match run with
    | .raised m => analysisErrorResult m
    | .ok (hist, nowTs) =>
      match calcAnomalyScore hist ((ev.amount.getD 0 : Nat) : ℚ) ev.contractAddress nowTs with
      | .error m => analysisErrorResult m
      | .ok s =>
        let confidence := calcAnomalyConfidence s hist.transactionsTo.length
        let factor :=
          if s > 7/10 then "HIGH_ANOMALY_SCORE"
          else if s > 4/10 then "MEDIUM_ANOMALY_SCORE"
          else "LOW_ANOMALY_SCORE"
        ⟨s, confidence, [factor]⟩

/-! ### Reputation risk (`_assess_reputation_risk`, lines 540-570, and
`_check_address_reputation`, lines 572-670) -/

/-- What `_check_address_reputation` sees of the outside world:
an exception during the check (`raised`), a non-200 GoPlus response
(`apiError`), or the parsed indicator values of `result`. Indicator values
are kept as integers — the source parses the JSON strings with `int(...)`
and skips unparseable entries; a parse failure of a *critical* indicator
inside the uncaught `int(...)` at line 637 raises and is the `raised`
case. -/
inductive RepFetch where
  | raised (msg : String)
  | apiError (code : Nat)
  | okData (indicators : List (String × Int))
deriving DecidableEq, Repr

/-- The `risk_indicators` table of `_check_address_reputation`, in source
order, with the display name `indicator.replace('_',' ').title().replace('Kyc','KYC')`
precomputed. -/
def riskIndicatorTable : List (String × ℚ × String) :=
  [("cybercrime", (9/10, "Cybercrime")),
   ("money_laundering", (9/10, "Money Laundering")),
   ("financial_crime", (8/10, "Financial Crime")),
   ("sanctioned", (9/10, "Sanctioned")),
   ("stealing_attack", (8/10, "Stealing Attack")),
   ("phishing_activities", (8/10, "Phishing Activities")),
   ("blackmail_activities", (7/10, "Blackmail Activities")),
   ("darkweb_transactions", (7/10, "Darkweb Transactions")),
   ("mixer", (6/10, "Mixer")),
   ("honeypot_related_address", (7/10, "Honeypot Related Address")),
   ("malicious_mining_activities", (6/10, "Malicious Mining Activities")),
   ("blacklist_doubt", (8/10, "Blacklist Doubt")),
   ("fake_kyc", (5/10, "Fake KYC")),
   ("fake_standard_interface", (5/10, "Fake Standard Interface")),
   ("fake_token", (4/10, "Fake Token")),
   ("gas_abuse", (4/10, "Gas Abuse")),
   ("number_of_malicious_contracts_created", (6/10, "Number Of Malicious Contracts Created")),
   ("reinit", (3/10, "Reinit"))]

/-- `result.get(indicator, "0")` followed by `int(...)`. -/
def getIndicator (inds : List (String × Int)) (key : String) : Int :=
  ((inds.find? (fun p => p.1 == key)).map (fun p => p.2)).getD 0

/-- The main indicator loop of `_check_address_reputation`:
`max_risk_score = max(max_risk_score, weight)` over triggered indicators
(score component of the loop). -/
def mainScanScore (inds : List (String × Int)) : ℚ :=
  riskIndicatorTable.foldl
    (fun acc e => if getIndicator inds e.1 > 0 then max acc e.2.1 else acc) 0

/-- The main indicator loop, factor-list component
(`triggered_factors.append(factor_name)`). -/
def mainScanFactors (inds : List (String × Int)) : List String :=
  riskIndicatorTable.foldl
    (fun acc e => if getIndicator inds e.1 > 0 then acc ++ [e.2.2] else acc) []

/-- The `critical_indicators` list with the `f"CRITICAL: ..."` labels. -/
def criticalIndicatorTable : List (String × String) :=
  [("cybercrime", "CRITICAL: Cybercrime"),
   ("money_laundering", "CRITICAL: Money Laundering"),
   ("financial_crime", "CRITICAL: Financial Crime"),
   ("sanctioned", "CRITICAL: Sanctioned")]

/-- The critical-indicator loop, score component:
`max_risk_score = max(max_risk_score, 0.95)` when triggered. -/
def criticalScanScore (inds : List (String × Int)) (s : ℚ) : ℚ :=
  criticalIndicatorTable.foldl
    (fun acc c => if getIndicator inds c.1 > 0 then max acc (95/100) else acc) s

/-- The critical-indicator loop, factor component:
`triggered_factors.insert(0, ...)` pushes each label to the front. -/
def criticalScanFactors (inds : List (String × Int)) (fs : List String) : List String :=
  criticalIndicatorTable.foldl
    (fun acc c => if getIndicator inds c.1 > 0 then c.2 :: acc else acc) fs

/-- `_check_address_reputation(address)` (the cache layer is modelled
separately, see `checkAddressReputationCached`). -/
def checkAddressReputation (rf : RepFetch) : FactorResult :=
  match rf with
  | .raised m => ⟨2/10, 3/10, ["Reputation check failed: " ++ m]⟩
  | .apiError code => ⟨2/10, 3/10, ["API error: " ++ toString code]⟩
  | .okData inds =>
    let score := criticalScanScore inds (mainScanScore inds)
    let triggered := criticalScanFactors inds (mainScanFactors inds)
    let confidence : ℚ := if triggered.isEmpty then 8/10 else 9/10
    ⟨score, confidence, if triggered.isEmpty then ["No reputation issues found"] else triggered⟩

/-- `_assess_reputation_risk(event)`. -/
def assessReputationRisk (ev : EventData) (run : AnalyzerRun RepFetch) : FactorResult :=
  if ev.fromAddress = "" then ⟨3/10, 3/10, ["NO_FROM_ADDRESS"]⟩
  else
    match run with
    | .raised m => analysisErrorResult m
    | .ok rf => checkAddressReputation rf

/-! ### Historical context (`_analyze_historical_context`, lines 672-760) -/

/-- Account-age contribution (block 1). -/
def histAgeScore (firstSeen : Option ℚ) (nowTs : ℚ) : ℚ × List String :=
  match firstSeen with
  | none => (0, [])
  | some fs =>
    let ageDays := (nowTs - fs) / 86400
    if ageDays < 1 then (3/10, ["NEW_ACCOUNT"])
    else if ageDays < 7 then (2/10, ["VERY_NEW_ACCOUNT"])
    else if ageDays < 30 then (1/10, ["RECENT_ACCOUNT"])
    else (0, [])

/-- Transaction-history contribution (block 2). -/
def histCountScore (count : Nat) : ℚ × List String :=
  if count = 0 then (4/10, ["NO_TRANSACTION_HISTORY"])
  else if count < 5 then (2/10, ["MINIMAL_TRANSACTION_HISTORY"])
  else if count > 1000 then (1/10, ["HIGH_FREQUENCY_USER"])
  else (0, [])

/-- Contract-interaction contribution (block 3). -/
def histContractsScore (uniqueContracts : Nat) : ℚ × List String :=
  if uniqueContracts = 0 then (2/10, ["NO_CONTRACT_INTERACTIONS"])
  else if uniqueContracts > 100 then (1/10, ["MANY_CONTRACT_INTERACTIONS"])
  else (0, [])

/-- Value-pattern contribution (block 4). -/
def histValueScore (totalValue curValue : ℚ) : ℚ × List String :=
  if totalValue > 0 ∧ curValue / totalValue > 1/2 then (3/10, ["LARGE_VALUE_RATIO"])
  else (0, [])

/-- Frequency contribution (block 5). -/
def histFreqScore (freq : ℚ) (count : Nat) : ℚ × List String :=
  if freq > 50 then (1/10, ["VERY_HIGH_FREQUENCY"])
  else if freq = 0 ∧ count > 0 then (2/10, ["INACTIVE_ACCOUNT"])
  else (0, [])

/-- `_analyze_historical_context(event)`. -/
def analyzeHistoricalContext (ev : EventData) (run : AnalyzerRun (HistSummary × ℚ)) :
    FactorResult :=
  if ev.fromAddress = "" then ⟨3/10, 3/10, ["NO_FROM_ADDRESS"]⟩
  else
    match run with
    | .raised m => analysisErrorResult m
    | .ok (hist, nowTs) =>
      let age := histAgeScore hist.firstSeen nowTs
      let cnt := histCountScore hist.transactionCount
      let ctr := histContractsScore hist.uniqueContracts
      let curValue : ℚ := ((ev.amount.getD 0 : Nat) : ℚ)
      let val := histValueScore hist.totalValue curValue
      let frq := histFreqScore hist.frequencyPerDay hist.transactionCount
      let riskScore := age.1 + cnt.1 + ctr.1 + val.1 + frq.1
      let riskFactors := age.2 ++ cnt.2 ++ ctr.2 ++ val.2 ++ frq.2
      let confidence : ℚ :=
        if hist.transactionCount > 10 then 8/10
        else if hist.transactionCount > 0 then 6/10
        else 4/10
      ⟨min riskScore 1, confidence,
        if riskFactors.isEmpty then ["STANDARD_HISTORICAL_CONTEXT"] else riskFactors⟩

/-! ### Approval risk (`_analyze_approval_risk`, lines 762-792, and
`_is_unlimited_approval`, lines 794-800) -/

/-- The `unlimited_values` list; its second, spelt-out literal is the same
number `2^256 - 1`. -/
def unlimitedValues : List Nat :=
  [2^256 - 1,
   115792089237316195423570985008687907853269984665640564039457584007913129639935]

/-- `_is_unlimited_approval(amount)`. -/
def isUnlimitedApproval (amount : Nat) : Bool :=
  decide (amount ∈ unlimitedValues) || decide (amount > 10^30)

/-- `_analyze_approval_risk(event)`: pure on the event, so the only
external outcome is an exception (`raised`). With no `approval_amount` key
the score stays `0.0`, the factor list stays empty and the confidence is
still `0.8`. -/
def analyzeApprovalRisk (ev : EventData) (run : AnalyzerRun Unit) : FactorResult :=
  match run with
  | .raised m => analysisErrorResult m
  | .ok _ =>
    match ev.approvalAmount with
    | none => ⟨0, 8/10, []⟩
    | some amount =>
      if isUnlimitedApproval amount then ⟨9/10, 8/10, ["UNLIMITED_APPROVAL"]⟩
      else if amount > 10^24 then ⟨7/10, 8/10, ["LARGE_APPROVAL"]⟩
      else ⟨3/10, 8/10, ["NORMAL_APPROVAL"]⟩

/-! ### The engine (`assess_comprehensive_risk`, lines 94-179) -/

/-- All external data consumed by one `assess_comprehensive_risk` call, one
slot per analyzer invocation (each wrapped in `AnalyzerRun` to model that
analyzer's `try`/`except`). -/
structure Ext where
  financialUsd : AnalyzerRun ℚ
  behavioral : AnalyzerRun (HistSummary × ℚ)
  reputation : AnalyzerRun RepFetch
  historical : AnalyzerRun (HistSummary × ℚ)
  approval : AnalyzerRun Unit
deriving DecidableEq, Repr

/-- The `risk_components` dict in insertion order: steps 1-4 always run,
step 5 (`ApprovalRisk`) only when `event_type == EventType.APPROVAL`
(line 137). -/
def riskComponents (ev : EventData) (ext : Ext) : List (RiskCategory × FactorResult) :=
  [(.financialImpact, analyzeFinancialImpact ev ext.financialUsd),
   (.behavioralAnomaly, detectBehavioralAnomalies ev ext.behavioral),
   (.reputationRisk, assessReputationRisk ev ext.reputation),
   (.historicalContext, analyzeHistoricalContext ev ext.historical)]
  ++ (if ev.eventType = .approval then [(.approvalRisk, analyzeApprovalRisk ev ext.approval)] else [])

/-- CPython `max(items, key=...)` keeps the current maximum unless a later
item is *strictly* greater, so over insertion-ordered items it returns the
first maximum. -/
def primaryCategoryAux (best : RiskCategory × FactorResult) :
    List (RiskCategory × FactorResult) → RiskCategory × FactorResult
  | [] => best
  | p :: rest => primaryCategoryAux (if p.2.score > best.2.score then p else best) rest

/-- `max(risk_components.items(), key=lambda x: x[1]['score'])[0]`
(line 148). `risk_components` is never empty (financial impact is always
present); the default is only for totality. -/
def primaryCategory (comps : List (RiskCategory × FactorResult))
    (dflt : RiskCategory) : RiskCategory :=
  match comps with
  | [] => dflt
  | p :: rest => (primaryCategoryAux p rest).1

/-- The `RiskAssessment` dataclass (the `details` snapshot is not modelled;
no combination logic reads it back). -/
structure RiskAssessment where
  overallScore : ℚ
  confidence : ℚ
  riskCategory : RiskCategory
  factors : List String
  recommendation : String
deriving DecidableEq, Repr

/-- The body of `assess_comprehensive_risk` after the analyzers ran
(lines 107-168): weighted score, mean confidence, primary category,
deduplicated factors, recommendation. -/
def assessComprehensiveRisk (ev : EventData) (ext : Ext) : RiskAssessment :=
  let comps := riskComponents ev ext
  let overallScore := calculateWeightedRiskScore comps
  let confidenceFactors := comps.map (fun p => p.2.confidence)
  let overallConfidence := confidenceFactors.sum / (confidenceFactors.length : ℚ)
  { overallScore := overallScore
    confidence := overallConfidence
    riskCategory := primaryCategory comps .financialImpact
    factors := ((comps.map (fun p => p.2.factors)).flatten).eraseDups
    recommendation := generateRecommendation overallScore overallConfidence }

/-- The fixed result of the outer `except` handler of
`assess_comprehensive_risk` (lines 170-179). -/
def errorAssessment (msg : String) : RiskAssessment :=
  { overallScore := 1/2
    confidence := 1/10
    riskCategory := .financialImpact
    factors := ["Assessment error: " ++ msg]
    recommendation := "INVESTIGATE" }

/-- `assess_comprehensive_risk` with its outer `try`/`except`: an exception
escaping the per-analyzer handling yields `errorAssessment`. -/
def assessTop (run : AnalyzerRun (EventData × Ext)) : RiskAssessment :=
  match run with
  | .raised m => errorAssessment m
  | .ok (ev, ext) => assessComprehensiveRisk ev ext

/-! ### TTL-gated caches (`_calculate_usd_value` lines 231-263,
`_get_token_price` lines 265-298, `_check_address_reputation` lines
576-582, `_get_historical_behavior` lines 344-349) -/

/-- One cache entry: the stored payload plus its insertion timestamp, as in
`{'...': value, 'timestamp': datetime.now().timestamp()}`. -/
structure CacheEntry (α : Type) where
  value : α
  timestamp : ℚ
deriving DecidableEq, Repr

/-- `_get_token_price`: on a cache miss the price is fetched from
CoinGecko; any API failure path (non-200, missing key, exception) ends at
the fallback price `1.0`. `api` is the successfully parsed price, if any. -/
def fetchTokenPrice (api : Option ℚ) : ℚ := api.getD 1

/-- The cache gate of `_get_token_price` (lines 269-274): return the cached
price only while `now - timestamp < ttl`, otherwise re-fetch. -/
def getTokenPrice (cached : Option (CacheEntry ℚ)) (now ttl : ℚ) (api : Option ℚ) : ℚ :=
  match cached with
  | some e => if now - e.timestamp < ttl then e.value else fetchTokenPrice api
  | none => fetchTokenPrice api

/-- `_calculate_usd_value(amount, token_address)` (lines 231-263):
cache gate, then `amount / 10**18 * token_price`. `price` is whatever
`_get_token_price` returned. -/
def calculateUsdValue (cached : Option (CacheEntry ℚ)) (now ttl : ℚ) (amount : Nat)
    (price : ℚ) : ℚ :=
  match cached with
  | some e => if now - e.timestamp < ttl then e.value else ((amount : ℚ) / 10^18) * price
  | none => ((amount : ℚ) / 10^18) * price

/-- The cache gate of `_check_address_reputation` (lines 576-582): past the
TTL the GoPlus lookup runs again (`checkAddressReputation rf`). -/
def checkAddressReputationCached (cached : Option (CacheEntry FactorResult)) (now ttl : ℚ)
    (rf : RepFetch) : FactorResult :=
  match cached with
  | some e => if now - e.timestamp < ttl then e.value else checkAddressReputation rf
  | none => checkAddressReputation rf

/-- The cache gate of `_get_historical_behavior` (lines 344-349): past the
TTL the Etherscan fetch runs again, producing `fetched`. -/
def getHistoricalBehaviorCached (cached : Option (CacheEntry HistSummary)) (now ttl : ℚ)
    (fetched : HistSummary) : HistSummary :=
  match cached with
  | some e => if now - e.timestamp < ttl then e.value else fetched
  | none => fetched

/-! ### Red-agent financial impact
(`agents-reasoning/red_agent/risk_engine.py`, `analyze_financial_impact`,
metadata path, lines 143-218) -/

/-- The zero address compared against `args.get('to')` / `args.get('from')`. -/
def zeroAddress : String := "0x0000000000000000000000000000000000000000"

/-- The `(score, confidence)` pair carried through
`analyze_financial_impact`. -/
structure RedFinancial where
  score : ℚ
  confidence : ℚ
deriving DecidableEq, Repr

/-- The base ETH-value ladder of `analyze_financial_impact`
(lines 176-191). -/
def redBaseTier (ethValue : ℚ) : RedFinancial :=
  if ethValue ≥ 1000000 then ⟨1, 95/100⟩
  else if ethValue ≥ 100000 then ⟨9/10, 9/10⟩
  else if ethValue ≥ 10000 then ⟨8/10, 85/100⟩
  else if ethValue ≥ 1000 then ⟨7/10, 8/10⟩
  else if ethValue ≥ 100 then ⟨6/10, 75/100⟩
  else if ethValue ≥ 10 then ⟨4/10, 7/10⟩
  else if ethValue ≥ 1 then ⟨3/10, 6/10⟩
  else ⟨1/10, 1/2⟩

/-- `RiskEngine.analyze_financial_impact`, metadata path (the branch where
`args` is nonempty and `int(args.get('value','0'))` parses): the ladder on
`value / 10**18`, then `+0.2` score / `+0.1` confidence (each capped at
`1.0`) when either endpoint is the zero address, then `+0.3` / `+0.15`
when the lower-cased event type is `"approval"` and the ETH value is at
least 1000. `eventTypeLower` is `event_type.lower()`. -/
def analyzeFinancialImpactMeta (eventTypeLower : String) (value : Nat)
    (toAddr fromAddr : String) : RedFinancial :=
  let ethValue : ℚ := (value : ℚ) / 10^18
  let base := redBaseTier ethValue
  let afterZero : RedFinancial :=
    if toAddr = zeroAddress ∨ fromAddr = zeroAddress then
      ⟨min 1 (base.score + 2/10), min 1 (base.confidence + 1/10)⟩
    else base
  if eventTypeLower = "approval" ∧ ethValue ≥ 1000 then
    ⟨min 1 (afterZero.score + 3/10), min 1 (afterZero.confidence + 15/100)⟩
  else afterZero

/-! ### Orchestrator delegation
(`agents/master_orchestrator/phase2_orchestrator.py`) -/

/-- The fields of `communication_models.EventAnalysisResult` the endpoint
reads. -/
structure EAResult where
  processedCount : Nat
  patternsCount : Nat
  processingTime : ℚ
  confidenceScore : ℚ
deriving DecidableEq, Repr

/-- The fields of `communication_models.RiskAssessmentResult` the endpoint
reads. -/
structure RAResult where
  assessmentsCount : Nat
  overallRiskScore : ℚ
  assessmentTime : ℚ
  confidenceScore : ℚ
deriving DecidableEq, Repr

/-- One `ctx.send_and_receive` exchange as the delegation helpers see it:
a typed response with `status == "success"`, any other `(response, status)`
pair (timeout, wrong type, remote error), or an exception raised inside the
helper's `try` block. In `delegate_to_risk_assessor` the `raised` case is
what actually happens whenever the pre-flight checks pass: the helper
builds `RiskAssessmentRequest(...)`, a name the module never imports, so
the construction raises `NameError` and the `except` returns `None`. -/
inductive DelegationOutcome (α : Type) where
  | success (response : α)
  | failed (status : String)
  | raised (msg : String)
deriving DecidableEq, Repr

/-- `delegate_to_event_analyzer` (lines 253-299): `None` unless the health
registry says `"healthy"`, an address is known, and the exchange returned a
typed success. -/
def delegateToEventAnalyzer (health : String) (address : Option String)
    (comm : DelegationOutcome EAResult) : Option EAResult :=
  if health ≠ "healthy" then none
  else
    match address with
    | none => none
    | some _ =>
      match comm with
      | .success r => some r
      | .failed _ => none
      | .raised _ => none

/-- `delegate_to_risk_assessor` (lines 301-349): same shape. -/
def delegateToRiskAssessor (health : String) (address : Option String)
    (comm : DelegationOutcome RAResult) : Option RAResult :=
  if health ≠ "healthy" then none
  else
    match address with
    | none => none
    | some _ =>
      match comm with
      | .success r => some r
      | .failed _ => none
      | .raised _ => none

/-- The parts of `EventAnalysisResponse` that distinguish the error path
from the success path: top-level `status`, the acknowledgment's `status`
and `message`, and `processing_started`. -/
structure EndpointResponse where
  status : String
  ackStatus : String
  ackMessage : String
  processingStarted : Bool
deriving DecidableEq, Repr

/-- `create_error_response(request_id, error_message)` (lines 364-376). -/
def createErrorResponse (msg : String) : EndpointResponse :=
  ⟨"error", "error", msg, false⟩

/-- The control flow of `analyze_events_endpoint` (lines 185-245): delegate
to the event analyzer, bail out with an error response on `None`, delegate
to the risk assessor, bail out with an error response on `None`, otherwise
acknowledge success. There is no other branch: no local risk computation
runs on the failure path. -/
def analyzeEventsEndpoint (eaHealth : String) (eaAddr : Option String)
    (eaComm : DelegationOutcome EAResult) (raHealth : String) (raAddr : Option String)
    (raComm : DelegationOutcome RAResult) (nEvents : Nat) : EndpointResponse :=
  match delegateToEventAnalyzer eaHealth eaAddr eaComm with
  | none => createErrorResponse "Event analysis failed"
  | some _ =>
    match delegateToRiskAssessor raHealth raAddr raComm with
    | none => createErrorResponse "Risk assessment failed"
    | some _ =>
      ⟨"success", "processed",
        "Successfully processed " ++ toString nEvents ++ " events with real multi-agent analysis",
        true⟩

/-! ### Spec-side comparison definitions -/

/-- The tie-break priority order claimed by the spec
(financial > reputation > behavioral > historical > approval), for
comparison with the implementation's behaviour; this definition follows
the spec's words, not the source. -/
def specPriority : RiskCategory → Nat
  | .financialImpact => 0
  | .reputationRisk => 1
  | .behavioralAnomaly => 2
  | .historicalContext => 3
  | .approvalRisk => 4

/-- The primary-category selection as the spec words it: highest score,
ties broken by `specPriority`. Follows the spec's words, for comparison
with `primaryCategory`. -/
def specPrimaryCategory (comps : List (RiskCategory × FactorResult)) : RiskCategory :=
  match comps with
  | [] => .financialImpact
  | p :: rest =>
    (rest.foldl (fun best q =>
      if q.2.score > best.2.score ∨ (q.2.score = best.2.score ∧ specPriority q.1 < specPriority best.1)
      then q else best) p).1

/-- The position of each category in the `risk_components` insertion order
(the tie-break the implementation actually applies). -/
def insertionIndex : RiskCategory → Nat
  | .financialImpact => 0
  | .behavioralAnomaly => 1
  | .reputationRisk => 2
  | .historicalContext => 3
  | .approvalRisk => 4

/-! ## Claim C3 — recommendation rule -/

/-- C3: for every overall score `s` and confidence `c`, the recommendation
is MONITOR whenever `c < MIN_CONFIDENCE = 0.6` regardless of `s`;
otherwise it is the score cascade CRITICAL_INVESTIGATION (`s ≥ 0.9`),
IMMEDIATE_INVESTIGATION (`s ≥ 0.7`), INVESTIGATE (`s ≥ 0.5`), MONITOR. -/
theorem claim_C3_recommendation (s c : ℚ) :
    (c < 6/10 → generateRecommendation s c = "MONITOR")
    ∧ (6/10 ≤ c →
        generateRecommendation s c =
          if s ≥ 9/10 then "CRITICAL_INVESTIGATION"
          else if s ≥ 7/10 then "IMMEDIATE_INVESTIGATION"
          else if s ≥ 1/2 then "INVESTIGATE"
          else "MONITOR") := by
  constructor
  · intro h
    simp [generateRecommendation, Config.minConfidence, h]
  · intro h
    simp only [generateRecommendation, Config.minConfidence, Config.criticalRiskThreshold,
      Config.highRiskThreshold]
    rw [if_neg (by linarith)]

/-- C3 witness: a score in the CRITICAL band with confidence below 0.6
still yields MONITOR. -/
theorem claim_C3_witness :
    ((1/2 : ℚ) < 6/10) ∧ generateRecommendation (19/20) (1/2) = "MONITOR" :=
  ⟨by norm_num, (claim_C3_recommendation (19/20) (1/2)).1 (by norm_num)⟩

/-! ## Claim C5 — approval risk analyzer -/

/-- The two entries of `unlimited_values` are the same number, so
`_is_unlimited_approval` holds exactly on `2^256 - 1` and on anything
above `10^30`. -/
lemma isUnlimitedApproval_iff (a : Nat) :
    isUnlimitedApproval a = true ↔ a = 2^256 - 1 ∨ a > 10^30 := by
  simp only [isUnlimitedApproval, unlimitedValues, Bool.or_eq_true, decide_eq_true_eq,
    List.mem_cons, List.mem_singleton, List.not_mem_nil, or_false]
  constructor
  · rintro (⟨h | h⟩ | h)
    · exact Or.inl h
    · exact Or.inl (by rw [h]; norm_num)
    · exact Or.inr h
  · rintro (h | h)
    · exact Or.inl (Or.inl h)
    · exact Or.inr h

/-- C5: with a parsed approval amount, `_analyze_approval_risk` returns
score 0.9 / tag UNLIMITED_APPROVAL on the `2^256−1` sentinel or any value
above `10^30`; score 0.7 / tag LARGE_APPROVAL above `10^24`; score 0.3 /
tag NORMAL_APPROVAL otherwise; confidence 0.8 in every case. -/
theorem claim_C5_approval (ev : EventData) (a : Nat) (hamt : ev.approvalAmount = some a) :
    (a = 2^256 - 1 ∨ a > 10^30 →
      analyzeApprovalRisk ev (.ok ()) = ⟨9/10, 8/10, ["UNLIMITED_APPROVAL"]⟩)
    ∧ (¬(a = 2^256 - 1 ∨ a > 10^30) → a > 10^24 →
      analyzeApprovalRisk ev (.ok ()) = ⟨7/10, 8/10, ["LARGE_APPROVAL"]⟩)
    ∧ (¬(a = 2^256 - 1 ∨ a > 10^30) → ¬ a > 10^24 →
      analyzeApprovalRisk ev (.ok ()) = ⟨3/10, 8/10, ["NORMAL_APPROVAL"]⟩)
    ∧ (analyzeApprovalRisk ev (.ok ())).confidence = 8/10 := by
  refine ⟨fun h => ?_, fun h h24 => ?_, fun h h24 => ?_, ?_⟩
  · simp only [analyzeApprovalRisk, hamt]
    rw [if_pos ((isUnlimitedApproval_iff a).mpr h)]
  · simp only [analyzeApprovalRisk, hamt]
    rw [if_neg (fun hc => h ((isUnlimitedApproval_iff a).mp hc)), if_pos h24]
  · simp only [analyzeApprovalRisk, hamt]
    rw [if_neg (fun hc => h ((isUnlimitedApproval_iff a).mp hc)), if_neg h24]
  · simp only [analyzeApprovalRisk, hamt]
    split_ifs <;> rfl

/-- C5 witness: the exact `2^256 − 1` sentinel is flagged UNLIMITED. -/
theorem claim_C5_witness :
    (EventData.mk .approval "0xtoken" none (some (2^256 - 1)) "0xabc").approvalAmount
        = some (2^256 - 1)
    ∧ analyzeApprovalRisk (EventData.mk .approval "0xtoken" none (some (2^256 - 1)) "0xabc")
        (.ok ()) = ⟨9/10, 8/10, ["UNLIMITED_APPROVAL"]⟩ :=
  ⟨rfl, (claim_C5_approval _ _ rfl).1 (Or.inl rfl)⟩

/-! ## Claim C9 — cache TTL -/

/-- C9: a cache entry older than the TTL is never served: each of the four
TTL-gated reads falls through to the recomputed / re-fetched value. -/
theorem claim_C9_cache_ttl (now ttl : ℚ) (api : Option ℚ)
    (eP eU : CacheEntry ℚ) (eR : CacheEntry FactorResult) (eH : CacheEntry HistSummary)
    (amount : Nat) (price : ℚ) (rf : RepFetch) (fetched : HistSummary)
    (hP : now - eP.timestamp > ttl) (hU : now - eU.timestamp > ttl)
    (hR : now - eR.timestamp > ttl) (hH : now - eH.timestamp > ttl) :
    getTokenPrice (some eP) now ttl api = fetchTokenPrice api
    ∧ calculateUsdValue (some eU) now ttl amount price = ((amount : ℚ) / 10^18) * price
    ∧ checkAddressReputationCached (some eR) now ttl rf = checkAddressReputation rf
    ∧ getHistoricalBehaviorCached (some eH) now ttl fetched = fetched := by
  refine ⟨?_, ?_, ?_, ?_⟩
  · simp only [getTokenPrice]
    rw [if_neg (by linarith)]
  · simp only [calculateUsdValue]
    rw [if_neg (by linarith)]
  · simp only [checkAddressReputationCached]
    rw [if_neg (by linarith)]
  · simp only [getHistoricalBehaviorCached]
    rw [if_neg (by linarith)]

/-- C9 witness: a 5-minute TTL, entries written at time 0, read at time
1000. -/
theorem claim_C9_witness :
    (1000 : ℚ) - (0 : ℚ) > 300
    ∧ getTokenPrice (some ⟨5, 0⟩) 1000 300 (some 7) = fetchTokenPrice (some 7)
    ∧ calculateUsdValue (some ⟨9, 0⟩) 1000 300 (2 * 10^18) 3 = (((2 * 10^18 : Nat) : ℚ) / 10^18) * 3
    ∧ checkAddressReputationCached (some ⟨⟨1, 1, []⟩, 0⟩) 1000 300 (.apiError 500)
        = checkAddressReputation (.apiError 500)
    ∧ getHistoricalBehaviorCached (some ⟨⟨0, 0, 0, [], none, 0, 0⟩, 0⟩) 1000 300
        ⟨1, 2, 3, [], none, 4, 5⟩ = ⟨1, 2, 3, [], none, 4, 5⟩ := by
  have h := claim_C9_cache_ttl 1000 300 (some 7) ⟨5, 0⟩ ⟨9, 0⟩ ⟨⟨1, 1, []⟩, 0⟩
    ⟨⟨0, 0, 0, [], none, 0, 0⟩, 0⟩ (2 * 10^18) 3 (.apiError 500) ⟨1, 2, 3, [], none, 4, 5⟩
    (by norm_num) (by norm_num) (by norm_num) (by norm_num)
  exact ⟨by norm_num, h.1, h.2.1, h.2.2.1, h.2.2.2⟩

/-! ## Claim C10 — engine-level error fallback -/

/-- C10: an exception escaping the per-analyzer handling yields the fixed
assessment (score 0.5, confidence 0.1, FINANCIAL_IMPACT, "INVESTIGATE");
its confidence 0.1 is below MIN_CONFIDENCE, and the normal rule would have
said MONITOR there, so the low-confidence override is bypassed on this
path. -/
theorem claim_C10_error_path (m : String) :
    assessTop (.raised m) = errorAssessment m
    ∧ (errorAssessment m).overallScore = 1/2
    ∧ (errorAssessment m).confidence = 1/10
    ∧ (errorAssessment m).riskCategory = .financialImpact
    ∧ (errorAssessment m).recommendation = "INVESTIGATE"
    ∧ (errorAssessment m).confidence < Config.minConfidence
    ∧ generateRecommendation (1/2) (1/10) = "MONITOR" := by
  refine ⟨rfl, rfl, rfl, rfl, rfl, ?_, ?_⟩
  · norm_num [errorAssessment, Config.minConfidence]
  · norm_num [generateRecommendation, Config.minConfidence]

/-! ## Claim C2 — orchestrator behaviour on risk-delegation failure -/

/-- C2 counterexample: the risk-assessment worker is unhealthy while event
analysis succeeded; the endpooint returns the error-only response
`"Risk assessment failed"` (status `"error"`, processing not started) —
there is no state in which a local `RiskAssessmentEngine.assess` fallback
runs and no per-event assessment is returned. -/
theorem claim_C2_counterexample :
    analyzeEventsEndpoint "healthy" (some "agent1qea") (.success ⟨1, 0, 1/10, 9/10⟩)
        "unhealthy" (some "agent1qra") (.success ⟨1, 1/2, 1/10, 9/10⟩) 1
      = { status := "error", ackStatus := "error", ackMessage := "Risk assessment failed",
          processingStarted := false } := by
  rfl

/-- C2 amended: whenever risk-assessment delegation fails (pre-flight
health gate not `"healthy"`, no known address, or no typed success
response — timeout, remote error, or an exception such as the `NameError`
on the unimported `RiskAssessmentRequest`), `delegate_to_risk_assessor`
returns `None` and `analyze_events_endpoint` answers with the error-only
response `"Risk assessment failed"`; no local fallback assessment is
computed. -/
theorem claim_C2_amended (eaH : String) (eaA : Option String)
    (eaC : DelegationOutcome EAResult) (raH : String) (raA : Option String)
    (raC : DelegationOutcome RAResult) (n : Nat) (r0 : EAResult)
    (hEA : delegateToEventAnalyzer eaH eaA eaC = some r0)
    (hfail : raH ≠ "healthy" ∨ raA = none ∨ ∀ r, raC ≠ DelegationOutcome.success r) :
    delegateToRiskAssessor raH raA raC = none
    ∧ analyzeEventsEndpoint eaH eaA eaC raH raA raC n
        = createErrorResponse "Risk assessment failed" := by
  have hNone : delegateToRiskAssessor raH raA raC = none := by
    rcases hfail with h | h | h
    · simp [delegateToRiskAssessor, h]
    · subst h
      simp only [delegateToRiskAssessor]
      split_ifs <;> rfl
    · cases raC with
      | success r => exact absurd rfl (h r)
      | failed s =>
        simp only [delegateToRiskAssessor]
        split_ifs with hh
        · rfl
        · cases raA <;> rfl
      | raised m =>
        simp only [delegateToRiskAssessor]
        split_ifs with hh
        · rfl
        · cases raA <;> rfl
  refine ⟨hNone, ?_⟩
  simp only [analyzeEventsEndpoint, hEA, hNone]

/-- C2 witness: event analysis delegated successfully, risk assessor
timed out. -/
theorem claim_C2_witness :
    delegateToEventAnalyzer "healthy" (some "agent1qea") (.success ⟨2, 1, 1/10, 9/10⟩)
        = some ⟨2, 1, 1/10, 9/10⟩
    ∧ ("timeout-unhealthy" ≠ "healthy"
        ∨ (some "agent1qra" : Option String) = none
        ∨ ∀ r, (DelegationOutcome.failed "timeout" : DelegationOutcome RAResult)
            ≠ DelegationOutcome.success r)
    ∧ analyzeEventsEndpoint "healthy" (some "agent1qea") (.success ⟨2, 1, 1/10, 9/10⟩)
        "timeout-unhealthy" (some "agent1qra") (.failed "timeout") 2
        = createErrorResponse "Risk assessment failed" :=
  ⟨rfl, Or.inl (by decide),
    (claim_C2_amended "healthy" (some "agent1qea") (.success ⟨2, 1, 1/10, 9/10⟩)
      "timeout-unhealthy" (some "agent1qra") (.failed "timeout") 2 ⟨2, 1, 1/10, 9/10⟩
      rfl (Or.inl (by decide))).2⟩

/-! ## Claim C6 — zero-address score bonus (red-agent financial impact) -/

/-- C6 counterexample: for a 0.1-ETH transfer whose `from` is already the
zero address, the `to`-zero variant scores 0.3 and the `to`-nonzero
variant also scores 0.3 (both already carry the single +0.2 bonus), so the
`to`-zero score is neither `0.2` higher nor `min (· + 0.2) 1` of the
other. -/
theorem claim_C6_counterexample :
    (analyzeFinancialImpactMeta "transfer" (10^17) zeroAddress zeroAddress).score = 3/10
    ∧ (analyzeFinancialImpactMeta "transfer" (10^17) "0xabcd" zeroAddress).score = 3/10
    ∧ ¬ ((analyzeFinancialImpactMeta "transfer" (10^17) zeroAddress zeroAddress).score
        = (analyzeFinancialImpactMeta "transfer" (10^17) "0xabcd" zeroAddress).score + 2/10)
    ∧ ¬ ((analyzeFinancialImpactMeta "transfer" (10^17) zeroAddress zeroAddress).score
        = min 1 ((analyzeFinancialImpactMeta "transfer" (10^17) "0xabcd" zeroAddress).score
            + 2/10)) := by
  have hz : (analyzeFinancialImpactMeta "transfer" (10^17) zeroAddress zeroAddress).score
      = 3/10 := by
    norm_num [analyzeFinancialImpactMeta, redBaseTier, zeroAddress]
  have hn : (analyzeFinancialImpactMeta "transfer" (10^17) "0xabcd" zeroAddress).score
      = 3/10 := by
    norm_num [analyzeFinancialImpactMeta, redBaseTier, zeroAddress]
  refine ⟨hz, hn, ?_, ?_⟩
  · rw [hz, hn]; norm_num
  · rw [hz, hn]; norm_num

/-- C6 amended: provided the `from` address is not itself the zero address,
a Transfer whose `to` is the zero address scores exactly
`min 1 (s + 0.2)` where `s` is the score of the otherwise-identical
transfer to a non-zero address (the source adds the single +0.2 bonus,
capped at 1.0, whenever either endpoint is zero; with a zero `from` both
variants already carry it and the scores coincide). -/
theorem claim_C6_amended (value : Nat) (toAddr fromAddr : String)
    (hfrom : fromAddr ≠ zeroAddress) (hto : toAddr ≠ zeroAddress) :
    (analyzeFinancialImpactMeta "transfer" value zeroAddress fromAddr).score
      = min 1 ((analyzeFinancialImpactMeta "transfer" value toAddr fromAddr).score + 2/10) := by
  have hTA : ¬ ("transfer" = "approval" ∧ ((value : ℚ)) / 10^18 ≥ 1000) :=
    fun h => absurd h.1 (by decide)
  simp only [analyzeFinancialImpactMeta, if_neg hTA]
  rw [if_pos (Or.inl trivial), if_neg (by simp [hto, hfrom])]

/-- C6 witness: a 50-ETH transfer (base tier 0.4): burning it (`to` = zero
address) scores 0.6. -/
theorem claim_C6_witness :
    ("0xsender" ≠ zeroAddress) ∧ ("0xreceiver" ≠ zeroAddress)
    ∧ (analyzeFinancialImpactMeta "transfer" (50 * 10^18) zeroAddress "0xsender").score
      = min 1 ((analyzeFinancialImpactMeta "transfer" (50 * 10^18) "0xreceiver" "0xsender").score
          + 2/10) :=
  ⟨by decide, by decide,
    claim_C6_amended (50 * 10^18) "0xreceiver" "0xsender" (by decide) (by decide)⟩

/-! ## Claim C1 — self-normalizing weighted mean -/

/-- If every component in a list scores `c`, the weighted score sum is `c`
times the weight sum. -/
lemma sum_score_mul_of_const (L : List (RiskCategory × FactorResult)) (c : ℚ)
    (h : ∀ p ∈ L, p.2.score = c) :
    (L.map (fun p => p.2.score * Config.riskWeights p.1)).sum
      = c * (L.map (fun p => Config.riskWeights p.1)).sum := by
  induction L with
  | nil => simp
  | cons q L ih =>
    simp only [List.map_cons, List.sum_cons, mul_add]
    rw [h q (List.mem_cons_self q L), ih (fun p hp => h p (List.mem_cons_of_mem q hp))]

/-- The weight sum over the invoked categories: `0.95` without the
Approval analyzer, `1` with it; in both cases above the `0.001`
division-by-zero floor. -/
lemma weightSum_eq (ev : EventData) (ext : Ext) :
    ((riskComponents ev ext).map (fun p => Config.riskWeights p.1)).sum
      = if ev.eventType = .approval then 1 else 19/20 := by
  by_cases hA : ev.eventType = .approval <;>
    simp [riskComponents, hA, Config.riskWeights] <;> norm_num

/-- C1: the overall score is the weighted mean over exactly the invoked
categories (the `max(total_weight, 0.001)` floor never bites because the
invoked weights sum to 0.95 or 1), and if every invoked analyzer scores
0.6 the overall score is 0.6 regardless of whether Approval was
skipped. -/
theorem claim_C1_weighted_mean (ev : EventData) (ext : Ext) :
    (assessComprehensiveRisk ev ext).overallScore
      = ((riskComponents ev ext).map (fun p => p.2.score * Config.riskWeights p.1)).sum
        / ((riskComponents ev ext).map (fun p => Config.riskWeights p.1)).sum
    ∧ ((∀ p ∈ riskComponents ev ext, p.2.score = 3/5) →
        (assessComprehensiveRisk ev ext).overallScore = 3/5) := by
  have htw : (1:ℚ)/1000 ≤ ((riskComponents ev ext).map (fun p => Config.riskWeights p.1)).sum := by
    rw [weightSum_eq]; split_ifs <;> norm_num
  have htwne : ((riskComponents ev ext).map (fun p => Config.riskWeights p.1)).sum ≠ 0 := by
    rw [weightSum_eq]; split_ifs <;> norm_num
  have key : (assessComprehensiveRisk ev ext).overallScore
      = ((riskComponents ev ext).map (fun p => p.2.score * Config.riskWeights p.1)).sum
        / ((riskComponents ev ext).map (fun p => Config.riskWeights p.1)).sum := by
    show calculateWeightedRiskScore (riskComponents ev ext) = _
    simp only [calculateWeightedRiskScore]
    rw [max_eq_left htw]
  refine ⟨key, fun h => ?_⟩
  rw [key, sum_score_mul_of_const _ _ h, mul_div_assoc, div_self htwne, mul_one]

set_option maxHeartbeats 1000000 in
/-- C1 witness: a non-Approval event where all four invoked analyzers
score exactly 0.6 (financial MEDIUM tier, behavioral 0.5+0.1, reputation
`mixer` weight 0.6, historical 0.4+0.2); the overall score is 0.6 even
though the Approval weight was excluded. -/
theorem claim_C1_witness :
    (∀ p ∈ riskComponents ⟨.transfer, "0xc", some 20, none, "0xfrom"⟩
        ⟨.ok 10000, .ok (⟨1, 7, 1, [], none, 0, 0⟩, 0), .ok (.okData [("mixer", 1)]),
          .ok (⟨0, 0, 0, [], none, 0, 0⟩, 0), .ok ()⟩, p.2.score = 3/5)
    ∧ (assessComprehensiveRisk ⟨.transfer, "0xc", some 20, none, "0xfrom"⟩
        ⟨.ok 10000, .ok (⟨1, 7, 1, [], none, 0, 0⟩, 0), .ok (.okData [("mixer", 1)]),
          .ok (⟨0, 0, 0, [], none, 0, 0⟩, 0), .ok ()⟩).overallScore = 3/5 := by
  have hs1 : ¬ ("0xfrom" = "") := by decide
  have hs2 : ¬ ("0xc" = "") := by decide
  have hf : (analyzeFinancialImpact ⟨.transfer, "0xc", some 20, none, "0xfrom"⟩
      (.ok 10000)).score = 3/5 := by
    norm_num [analyzeFinancialImpact, financialTier, Config.criticalFinancialThreshold,
      Config.highFinancialThreshold, Config.mediumFinancialThreshold,
      Config.lowFinancialThreshold]
  have hb : (detectBehavioralAnomalies ⟨.transfer, "0xc", some 20, none, "0xfrom"⟩
      (.ok (⟨1, 7, 1, [], none, 0, 0⟩, 0))).score = 3/5 := by
    norm_num [detectBehavioralAnomalies, calcAnomalyScore, anomalyValueScore,
      anomalyContractScore, anomalyFreqScore, anomalyAgeScore, anomalyCountScore,
      calcAnomalyConfidence, hs1, hs2, min_def]
  have hr : (assessReputationRisk ⟨.transfer, "0xc", some 20, none, "0xfrom"⟩
      (.ok (.okData [("mixer", 1)]))).score = 3/5 := by
    have g0 : getIndicator [("mixer", 1)] "cybercrime" = 0 := by decide
    have g1 : getIndicator [("mixer", 1)] "money_laundering" = 0 := by decide
    have g2 : getIndicator [("mixer", 1)] "financial_crime" = 0 := by decide
    have g3 : getIndicator [("mixer", 1)] "sanctioned" = 0 := by decide
    have g4 : getIndicator [("mixer", 1)] "stealing_attack" = 0 := by decide
    have g5 : getIndicator [("mixer", 1)] "phishing_activities" = 0 := by decide
    have g6 : getIndicator [("mixer", 1)] "blackmail_activities" = 0 := by decide
    have g7 : getIndicator [("mixer", 1)] "darkweb_transactions" = 0 := by decide
    have g8 : getIndicator [("mixer", 1)] "mixer" = 1 := by decide
    have g9 : getIndicator [("mixer", 1)] "honeypot_related_address" = 0 := by decide
    have g10 : getIndicator [("mixer", 1)] "malicious_mining_activities" = 0 := by decide
    have g11 : getIndicator [("mixer", 1)] "blacklist_doubt" = 0 := by decide
    have g12 : getIndicator [("mixer", 1)] "fake_kyc" = 0 := by decide
    have g13 : getIndicator [("mixer", 1)] "fake_standard_interface" = 0 := by decide
    have g14 : getIndicator [("mixer", 1)] "fake_token" = 0 := by decide
    have g15 : getIndicator [("mixer", 1)] "gas_abuse" = 0 := by decide
    have g16 : getIndicator [("mixer", 1)] "number_of_malicious_contracts_created" = 0 := by
      decide
    have g17 : getIndicator [("mixer", 1)] "reinit" = 0 := by decide
    simp only [assessReputationRisk, checkAddressReputation, mainScanScore, mainScanFactors,
      criticalScanScore, criticalScanFactors, riskIndicatorTable, criticalIndicatorTable,
      List.foldl, g0, g1, g2, g3, g4, g5, g6, g7, g8, g9, g10, g11, g12, g13, g14, g15,
      g16, g17, hs1]
    norm_num [max_def]
  have hh : (analyzeHistoricalContext ⟨.transfer, "0xc", some 20, none, "0xfrom"⟩
      (.ok (⟨0, 0, 0, [], none, 0, 0⟩, 0))).score = 3/5 := by
    norm_num [analyzeHistoricalContext, histAgeScore, histCountScore, histContractsScore,
      histValueScore, histFreqScore, hs1, min_def]
  have hall : ∀ p ∈ riskComponents ⟨.transfer, "0xc", some 20, none, "0xfrom"⟩
      ⟨.ok 10000, .ok (⟨1, 7, 1, [], none, 0, 0⟩, 0), .ok (.okData [("mixer", 1)]),
        .ok (⟨0, 0, 0, [], none, 0, 0⟩, 0), .ok ()⟩, p.2.score = 3/5 := by
    intro p hp
    simp only [riskComponents, List.mem_append, List.mem_cons, List.not_mem_nil,
      or_false] at hp
    rcases hp with hp | hp
    · rcases hp with hp | hp | hp | hp <;> subst hp
      · exact hf
      · exact hb
      · exact hr
      · exact hh
    · simp at hp
  exact ⟨hall, (claim_C1_weighted_mean _ _).2 hall⟩

/-! ## Claim C8 — analyzer failures are absorbed -/

/-- If every component in a list has confidence `c`, the confidence sum is
`c` times the length. -/
lemma sum_conf_of_const (L : List (RiskCategory × FactorResult)) (c : ℚ)
    (h : ∀ p ∈ L, p.2.confidence = c) :
    (L.map (fun p => p.2.confidence)).sum = c * (L.length : ℚ) := by
  induction L with
  | nil => simp
  | cons q L ih =>
    simp only [List.map_cons, List.sum_cons, List.length_cons]
    rw [h q (List.mem_cons_self q L), ih (fun p hp => h p (List.mem_cons_of_mem q hp))]
    push_cast
    ring

/-- C8 counterexample: a financial-analyzer exception with message `boom`
records the factor `"Analysis error: boom"` — not a tag of the form
`"financial_analysis_error"`, which never appears. -/
theorem claim_C8_counterexample :
    (analyzeFinancialImpact ⟨.transfer, "0xc", some 5, none, "0xa"⟩ (.raised "boom")).factors
      = ["Analysis error: boom"]
    ∧ "financial_analysis_error"
        ∉ (analyzeFinancialImpact ⟨.transfer, "0xc", some 5, none, "0xa"⟩
            (.raised "boom")).factors
    ∧ ∀ t ∈ (analyzeFinancialImpact ⟨.transfer, "0xc", some 5, none, "0xa"⟩
        (.raised "boom")).factors, t ≠ "financial_analysis_error" := by
  refine ⟨rfl, by decide, by decide⟩

/-- C8 amended: an exception in any one analyzer is caught and that
category contributes score 0.3 / confidence 0.3 with the factor
`"Analysis error: <message>"` (the same prefix for every category, not a
`"<category>_analysis_error"` tag), and `assess_comprehensive_risk` still
completes — with every analyzer failing it returns overall score 0.3 and
confidence 0.3. (`from_address` nonempty so the three address-dependent
analyzers actually reach their failing body.) -/
theorem claim_C8_amended (ev : EventData) (m : String) (hfa : ev.fromAddress ≠ "") :
    analyzeFinancialImpact ev (.raised m) = analysisErrorResult m
    ∧ detectBehavioralAnomalies ev (.raised m) = analysisErrorResult m
    ∧ assessReputationRisk ev (.raised m) = analysisErrorResult m
    ∧ analyzeHistoricalContext ev (.raised m) = analysisErrorResult m
    ∧ analyzeApprovalRisk ev (.raised m) = analysisErrorResult m
    ∧ analysisErrorResult m = ⟨3/10, 3/10, ["Analysis error: " ++ m]⟩
    ∧ (assessComprehensiveRisk ev
        ⟨.raised m, .raised m, .raised m, .raised m, .raised m⟩).overallScore = 3/10
    ∧ (assessComprehensiveRisk ev
        ⟨.raised m, .raised m, .raised m, .raised m, .raised m⟩).confidence = 3/10 := by
  have hb : detectBehavioralAnomalies ev (.raised m) = analysisErrorResult m := by
    simp [detectBehavioralAnomalies, hfa]
  have hr : assessReputationRisk ev (.raised m) = analysisErrorResult m := by
    simp [assessReputationRisk, hfa]
  have hh : analyzeHistoricalContext ev (.raised m) = analysisErrorResult m := by
    simp [analyzeHistoricalContext, hfa]
  have hall : ∀ p ∈ riskComponents ev ⟨.raised m, .raised m, .raised m, .raised m, .raised m⟩,
      p.2 = analysisErrorResult m := by
    intro p hp
    simp only [riskComponents, List.mem_append, List.mem_cons, List.not_mem_nil,
      or_false] at hp
    rcases hp with (hp | hp | hp | hp) | hp
    · subst hp; rfl
    · subst hp; exact hb
    · subst hp; exact hr
    · subst hp; exact hh
    · by_cases hA : ev.eventType = .approval
      · rw [if_pos hA] at hp
        simp only [List.mem_singleton] at hp
        subst hp; rfl
      · rw [if_neg hA] at hp
        simp at hp
  have hscores : ∀ p ∈ riskComponents ev ⟨.raised m, .raised m, .raised m, .raised m, .raised m⟩,
      p.2.score = 3/10 := fun p hp => by rw [hall p hp]; rfl
  have hconfs : ∀ p ∈ riskComponents ev ⟨.raised m, .raised m, .raised m, .raised m, .raised m⟩,
      p.2.confidence = 3/10 := fun p hp => by rw [hall p hp]; rfl
  have hlen : ((riskComponents ev
      ⟨.raised m, .raised m, .raised m, .raised m, .raised m⟩).length : ℚ) ≠ 0 := by
    by_cases hA : ev.eventType = .approval <;> simp [riskComponents, hA]
  have hoverall : (assessComprehensiveRisk ev
      ⟨.raised m, .raised m, .raised m, .raised m, .raised m⟩).overallScore = 3/10 := by
    show calculateWeightedRiskScore _ = 3/10
    simp only [calculateWeightedRiskScore]
    rw [sum_score_mul_of_const _ _ hscores]
    rw [max_eq_left (by rw [weightSum_eq]; split_ifs <;> norm_num)]
    rw [mul_div_assoc, div_self (by rw [weightSum_eq]; split_ifs <;> norm_num), mul_one]
  have hconf : (assessComprehensiveRisk ev
      ⟨.raised m, .raised m, .raised m, .raised m, .raised m⟩).confidence = 3/10 := by
    show (List.map _ _).sum / _ = 3/10
    rw [sum_conf_of_const _ _ hconfs]
    rw [List.length_map]
    rw [mul_div_assoc, div_self hlen, mul_one]
  exact ⟨rfl, hb, hr, hh, rfl, rfl, hoverall, hconf⟩

/-- C8 witness: a concrete event with every analyzer raising `boom`. -/
theorem claim_C8_witness :
    ((⟨.transfer, "0xc", some 5, none, "0xa"⟩ : EventData).fromAddress ≠ "")
    ∧ (analyzeFinancialImpact ⟨.transfer, "0xc", some 5, none, "0xa"⟩ (.raised "boom")
          = analysisErrorResult "boom"
        ∧ detectBehavioralAnomalies ⟨.transfer, "0xc", some 5, none, "0xa"⟩ (.raised "boom")
          = analysisErrorResult "boom"
        ∧ assessReputationRisk ⟨.transfer, "0xc", some 5, none, "0xa"⟩ (.raised "boom")
          = analysisErrorResult "boom"
        ∧ analyzeHistoricalContext ⟨.transfer, "0xc", some 5, none, "0xa"⟩ (.raised "boom")
          = analysisErrorResult "boom"
        ∧ analyzeApprovalRisk ⟨.transfer, "0xc", some 5, none, "0xa"⟩ (.raised "boom")
          = analysisErrorResult "boom"
        ∧ analysisErrorResult "boom" = ⟨3/10, 3/10, ["Analysis error: " ++ "boom"]⟩
        ∧ (assessComprehensiveRisk ⟨.transfer, "0xc", some 5, none, "0xa"⟩
            ⟨.raised "boom", .raised "boom", .raised "boom", .raised "boom",
              .raised "boom"⟩).overallScore = 3/10
        ∧ (assessComprehensiveRisk ⟨.transfer, "0xc", some 5, none, "0xa"⟩
            ⟨.raised "boom", .raised "boom", .raised "boom", .raised "boom",
              .raised "boom"⟩).confidence = 3/10) :=
  ⟨by decide, claim_C8_amended ⟨.transfer, "0xc", some 5, none, "0xa"⟩ "boom" (by decide)⟩

/-! ## Claim C7 — primary category selection -/

/-- The fold behind `primaryCategory` never loses to a later element:
its result's score dominates the seed and every list element. -/
lemma primaryCategoryAux_ge (L : List (RiskCategory × FactorResult))
    (best : RiskCategory × FactorResult) :
    best.2.score ≤ (primaryCategoryAux best L).2.score
    ∧ ∀ q ∈ L, q.2.score ≤ (primaryCategoryAux best L).2.score := by
  induction L generalizing best with
  | nil => exact ⟨le_refl _, by simp⟩
  | cons q L ih =>
    simp only [primaryCategoryAux]
    by_cases h : q.2.score > best.2.score
    · rw [if_pos h]
      obtain ⟨ha, hb⟩ := ih q
      refine ⟨le_trans (le_of_lt h) ha, fun r hr => ?_⟩
      rcases List.mem_cons.mp hr with hr | hr
      · subst hr; exact ha
      · exact hb r hr
    · rw [if_neg h]
      obtain ⟨ha, hb⟩ := ih best
      refine ⟨ha, fun r hr => ?_⟩
      rcases List.mem_cons.mp hr with hr | hr
      · subst hr; exact le_trans (not_lt.mp h) ha
      · exact hb r hr

/-- The fold's result is either the seed, or a list element that scored
strictly above the seed. -/
lemma primaryCategoryAux_mem (L : List (RiskCategory × FactorResult))
    (best : RiskCategory × FactorResult) :
    primaryCategoryAux best L = best
    ∨ (primaryCategoryAux best L ∈ L
        ∧ best.2.score < (primaryCategoryAux best L).2.score) := by
  induction L generalizing best with
  | nil => exact Or.inl rfl
  | cons q L ih =>
    simp only [primaryCategoryAux]
    by_cases h : q.2.score > best.2.score
    · rw [if_pos h]
      rcases ih q with h1 | ⟨h1, h2⟩
      · exact Or.inr ⟨by rw [h1]; exact List.mem_cons_self q L, by rw [h1]; exact h⟩
      · exact Or.inr ⟨List.mem_cons_of_mem q h1, lt_trans h h2⟩
    · rw [if_neg h]
      rcases ih best with h1 | ⟨h1, h2⟩
      · exact Or.inl h1
      · exact Or.inr ⟨List.mem_cons_of_mem q h1, h2⟩

/-- Over a list whose positions are strictly increasing under an index
function `f` (with the seed before everything), the fold resolves score
ties towards the smaller index: CPython `max` keeps the earliest
maximum. -/
lemma primaryCategoryAux_firstmax (f : RiskCategory × FactorResult → Nat)
    (L : List (RiskCategory × FactorResult)) :
    ∀ best : RiskCategory × FactorResult, (∀ q ∈ L, f best < f q) →
      List.Pairwise (fun a b => f a < f b) L →
      ∀ q, (q = best ∨ q ∈ L) → q.2.score = (primaryCategoryAux best L).2.score →
        f (primaryCategoryAux best L) ≤ f q := by
  induction L with
  | nil =>
    intro best hbest hpair q hq hs
    rcases hq with hq | hq
    · subst hq; exact le_refl _
    · simp at hq
  | cons q0 L ih =>
    intro best hbest hpair q hq hs
    obtain ⟨hp0, hpL⟩ := List.pairwise_cons.mp hpair
    simp only [primaryCategoryAux] at hs ⊢
    by_cases h : q0.2.score > best.2.score
    · rw [if_pos h] at hs ⊢
      rcases hq with hq | hq
      · -- q is the discarded seed: its score cannot match the result
        exfalso
        have hge := (primaryCategoryAux_ge L q0).1
        have hlt : q.2.score < (primaryCategoryAux q0 L).2.score := by
          rw [hq]; exact lt_of_lt_of_le h hge
        rw [hs] at hlt
        exact lt_irrefl _ hlt
      · rcases List.mem_cons.mp hq with hq | hq
        · exact ih q0 hp0 hpL q (Or.inl hq) hs
        · exact ih q0 hp0 hpL q (Or.inr hq) hs
    · rw [if_neg h] at hs ⊢
      have hbest' : ∀ r ∈ L, f best < f r := fun r hr =>
        hbest r (List.mem_cons_of_mem q0 hr)
      rcases hq with hq | hq
      · exact ih best hbest' hpL q (Or.inl hq) hs
      · rcases List.mem_cons.mp hq with hq | hq
        · -- q is the skipped element q0 (score ≤ seed): the result must be
          -- the seed, which sits at a smaller index
          rcases primaryCategoryAux_mem L best with h1 | ⟨h1, h2⟩
          · rw [h1, hq]
            exact le_of_lt (hbest q0 (List.mem_cons_self q0 L))
          · exfalso
            have hle : q.2.score ≤ best.2.score := by
              rw [hq]; exact not_lt.mp h
            rw [hs] at hle
            exact absurd h2 (not_lt.mpr hle)
        · exact ih best hbest' hpL q (Or.inr hq) hs

/-- C7 counterexample: behavioral and reputation both score 0.5 (the
maximum); the engine reports BEHAVIORAL_ANOMALY (insertion order), while
the spec's priority order (financial > reputation > behavioral > ...)
would report REPUTATION_RISK. -/
theorem claim_C7_counterexample :
    (detectBehavioralAnomalies ⟨.transfer, "0xc", some 20, none, "0xfrom"⟩
        (.ok (⟨1, 7, 1, ["0xc"], none, 0, 0⟩, 0))).score
      = (assessReputationRisk ⟨.transfer, "0xc", some 20, none, "0xfrom"⟩
        (.ok (.okData [("fake_kyc", 1)]))).score
    ∧ (assessComprehensiveRisk ⟨.transfer, "0xc", some 20, none, "0xfrom"⟩
        ⟨.ok 0, .ok (⟨1, 7, 1, ["0xc"], none, 0, 0⟩, 0), .ok (.okData [("fake_kyc", 1)]),
          .ok (⟨1, 7, 0, [], none, 0, 0⟩, 0), .ok ()⟩).riskCategory = .behavioralAnomaly
    ∧ specPrimaryCategory (riskComponents ⟨.transfer, "0xc", some 20, none, "0xfrom"⟩
        ⟨.ok 0, .ok (⟨1, 7, 1, ["0xc"], none, 0, 0⟩, 0), .ok (.okData [("fake_kyc", 1)]),
          .ok (⟨1, 7, 0, [], none, 0, 0⟩, 0), .ok ()⟩) = .reputationRisk
    ∧ RiskCategory.behavioralAnomaly ≠ RiskCategory.reputationRisk := by
  have hs1 : ¬ ("0xfrom" = "") := by decide
  have hf : analyzeFinancialImpact ⟨.transfer, "0xc", some 20, none, "0xfrom"⟩ (.ok 0)
      = ⟨2/10, 5/10, ["MINIMAL_FINANCIAL_IMPACT"]⟩ := by
    norm_num [analyzeFinancialImpact, financialTier, Config.criticalFinancialThreshold,
      Config.highFinancialThreshold, Config.mediumFinancialThreshold,
      Config.lowFinancialThreshold]
  have hb : detectBehavioralAnomalies ⟨.transfer, "0xc", some 20, none, "0xfrom"⟩
      (.ok (⟨1, 7, 1, ["0xc"], none, 0, 0⟩, 0)) = ⟨1/2, 4/25, ["MEDIUM_ANOMALY_SCORE"]⟩ := by
    norm_num [detectBehavioralAnomalies, calcAnomalyScore, anomalyValueScore,
      anomalyContractScore, anomalyFreqScore, anomalyAgeScore, anomalyCountScore,
      calcAnomalyConfidence, hs1, min_def]
  have hr : assessReputationRisk ⟨.transfer, "0xc", some 20, none, "0xfrom"⟩
      (.ok (.okData [("fake_kyc", 1)])) = ⟨1/2, 9/10, ["Fake KYC"]⟩ := by
    have g0 : getIndicator [("fake_kyc", 1)] "cybercrime" = 0 := by decide
    have g1 : getIndicator [("fake_kyc", 1)] "money_laundering" = 0 := by decide
    have g2 : getIndicator [("fake_kyc", 1)] "financial_crime" = 0 := by decide
    have g3 : getIndicator [("fake_kyc", 1)] "sanctioned" = 0 := by decide
    have g4 : getIndicator [("fake_kyc", 1)] "stealing_attack" = 0 := by decide
    have g5 : getIndicator [("fake_kyc", 1)] "phishing_activities" = 0 := by decide
    have g6 : getIndicator [("fake_kyc", 1)] "blackmail_activities" = 0 := by decide
    have g7 : getIndicator [("fake_kyc", 1)] "darkweb_transactions" = 0 := by decide
    have g8 : getIndicator [("fake_kyc", 1)] "mixer" = 0 := by decide
    have g9 : getIndicator [("fake_kyc", 1)] "honeypot_related_address" = 0 := by decide
    have g10 : getIndicator [("fake_kyc", 1)] "malicious_mining_activities" = 0 := by decide
    have g11 : getIndicator [("fake_kyc", 1)] "blacklist_doubt" = 0 := by decide
    have g12 : getIndicator [("fake_kyc", 1)] "fake_kyc" = 1 := by decide
    have g13 : getIndicator [("fake_kyc", 1)] "fake_standard_interface" = 0 := by decide
    have g14 : getIndicator [("fake_kyc", 1)] "fake_token" = 0 := by decide
    have g15 : getIndicator [("fake_kyc", 1)] "gas_abuse" = 0 := by decide
    have g16 : getIndicator [("fake_kyc", 1)] "number_of_malicious_contracts_created" = 0 := by
      decide
    have g17 : getIndicator [("fake_kyc", 1)] "reinit" = 0 := by decide
    simp only [assessReputationRisk, checkAddressReputation, mainScanScore, mainScanFactors,
      criticalScanScore, criticalScanFactors, riskIndicatorTable, criticalIndicatorTable,
      List.foldl, g0, g1, g2, g3, g4, g5, g6, g7, g8, g9, g10, g11, g12, g13, g14, g15,
      g16, g17, hs1]
    norm_num [max_def]
  have hh : analyzeHistoricalContext ⟨.transfer, "0xc", some 20, none, "0xfrom"⟩
      (.ok (⟨1, 7, 0, [], none, 0, 0⟩, 0))
      = ⟨2/5, 3/5, ["NO_CONTRACT_INTERACTIONS", "INACTIVE_ACCOUNT"]⟩ := by
    norm_num [analyzeHistoricalContext, histAgeScore, histCountScore, histContractsScore,
      histValueScore, histFreqScore, hs1, min_def]
  have hcomps : riskComponents ⟨.transfer, "0xc", some 20, none, "0xfrom"⟩
      ⟨.ok 0, .ok (⟨1, 7, 1, ["0xc"], none, 0, 0⟩, 0), .ok (.okData [("fake_kyc", 1)]),
        .ok (⟨1, 7, 0, [], none, 0, 0⟩, 0), .ok ()⟩
      = [(.financialImpact, ⟨2/10, 5/10, ["MINIMAL_FINANCIAL_IMPACT"]⟩),
         (.behavioralAnomaly, ⟨1/2, 4/25, ["MEDIUM_ANOMALY_SCORE"]⟩),
         (.reputationRisk, ⟨1/2, 9/10, ["Fake KYC"]⟩),
         (.historicalContext, ⟨2/5, 3/5, ["NO_CONTRACT_INTERACTIONS", "INACTIVE_ACCOUNT"]⟩)] := by
    simp [riskComponents, hf, hb, hr, hh]
  refine ⟨by rw [hb, hr], ?_, ?_, by decide⟩
  · show primaryCategory (riskComponents _ _) .financialImpact = _
    rw [hcomps]
    norm_num [primaryCategory, primaryCategoryAux]
  · rw [hcomps]
    norm_num [specPrimaryCategory, specPriority]

/-- C7 amended: the primary category is an invoked category of maximal
individual score, and ties are broken by the `risk_components` insertion
order financial > behavioral > reputation > historical > approval — not by
the spec's financial > reputation > behavioral > historical > approval. -/
theorem claim_C7_amended (ev : EventData) (ext : Ext) :
    ∃ p ∈ riskComponents ev ext,
      (assessComprehensiveRisk ev ext).riskCategory = p.1
      ∧ (∀ q ∈ riskComponents ev ext, q.2.score ≤ p.2.score)
      ∧ (∀ q ∈ riskComponents ev ext, q.2.score = p.2.score →
          insertionIndex p.1 ≤ insertionIndex q.1) := by
  have hspec := fun (best : RiskCategory × FactorResult)
      (L : List (RiskCategory × FactorResult))
      (hbest : ∀ q ∈ L, insertionIndex best.1 < insertionIndex q.1)
      (hpair : List.Pairwise
        (fun a b : RiskCategory × FactorResult => insertionIndex a.1 < insertionIndex b.1) L) =>
    (⟨primaryCategoryAux best L,
      by
        rcases primaryCategoryAux_mem L best with h1 | ⟨h1, -⟩
        · rw [h1]; exact List.mem_cons_self best L
        · exact List.mem_cons_of_mem best h1,
      rfl,
      by
        intro q hq
        rcases List.mem_cons.mp hq with hq | hq
        · rw [hq]; exact (primaryCategoryAux_ge L best).1
        · exact (primaryCategoryAux_ge L best).2 q hq,
      by
        intro q hq hsc
        exact primaryCategoryAux_firstmax (fun r => insertionIndex r.1) L best hbest hpair q
          (List.mem_cons.mp hq) hsc⟩ :
      ∃ p ∈ best :: L,
        (primaryCategoryAux best L).1 = p.1
        ∧ (∀ q ∈ best :: L, q.2.score ≤ p.2.score)
        ∧ (∀ q ∈ best :: L, q.2.score = p.2.score →
            insertionIndex p.1 ≤ insertionIndex q.1))
  by_cases hA : ev.eventType = .approval
  · have hcomps : riskComponents ev ext
        = (RiskCategory.financialImpact, analyzeFinancialImpact ev ext.financialUsd)
          :: [(RiskCategory.behavioralAnomaly, detectBehavioralAnomalies ev ext.behavioral),
              (RiskCategory.reputationRisk, assessReputationRisk ev ext.reputation),
              (RiskCategory.historicalContext, analyzeHistoricalContext ev ext.historical),
              (RiskCategory.approvalRisk, analyzeApprovalRisk ev ext.approval)] := by
      simp [riskComponents, hA]
    have hprim : (assessComprehensiveRisk ev ext).riskCategory
        = (primaryCategoryAux
            (RiskCategory.financialImpact, analyzeFinancialImpact ev ext.financialUsd)
            [(RiskCategory.behavioralAnomaly, detectBehavioralAnomalies ev ext.behavioral),
             (RiskCategory.reputationRisk, assessReputationRisk ev ext.reputation),
             (RiskCategory.historicalContext, analyzeHistoricalContext ev ext.historical),
             (RiskCategory.approvalRisk, analyzeApprovalRisk ev ext.approval)]).1 := by
      show primaryCategory (riskComponents ev ext) .financialImpact = _
      rw [hcomps]
      rfl
    obtain ⟨p, hp, h1, h2, h3⟩ := hspec
      (RiskCategory.financialImpact, analyzeFinancialImpact ev ext.financialUsd)
      [(RiskCategory.behavioralAnomaly, detectBehavioralAnomalies ev ext.behavioral),
       (RiskCategory.reputationRisk, assessReputationRisk ev ext.reputation),
       (RiskCategory.historicalContext, analyzeHistoricalContext ev ext.historical),
       (RiskCategory.approvalRisk, analyzeApprovalRisk ev ext.approval)]
      (by
        intro q hq
        rcases List.mem_cons.mp hq with hq | hq
        · rw [hq]; norm_num [insertionIndex]
        rcases List.mem_cons.mp hq with hq | hq
        · rw [hq]; norm_num [insertionIndex]
        rcases List.mem_cons.mp hq with hq | hq
        · rw [hq]; norm_num [insertionIndex]
        rcases List.mem_cons.mp hq with hq | hq
        · rw [hq]; norm_num [insertionIndex]
        · simp at hq)
      (by simp [List.pairwise_cons, insertionIndex])
    rw [hcomps]
    exact ⟨p, hp, hprim.trans h1, h2, h3⟩
  · have hcomps : riskComponents ev ext
        = (RiskCategory.financialImpact, analyzeFinancialImpact ev ext.financialUsd)
          :: [(RiskCategory.behavioralAnomaly, detectBehavioralAnomalies ev ext.behavioral),
              (RiskCategory.reputationRisk, assessReputationRisk ev ext.reputation),
              (RiskCategory.historicalContext, analyzeHistoricalContext ev ext.historical)] := by
      simp [riskComponents, hA]
    have hprim : (assessComprehensiveRisk ev ext).riskCategory
        = (primaryCategoryAux
            (RiskCategory.financialImpact, analyzeFinancialImpact ev ext.financialUsd)
            [(RiskCategory.behavioralAnomaly, detectBehavioralAnomalies ev ext.behavioral),
             (RiskCategory.reputationRisk, assessReputationRisk ev ext.reputation),
             (RiskCategory.historicalContext, analyzeHistoricalContext ev ext.historical)]).1 := by
      show primaryCategory (riskComponents ev ext) .financialImpact = _
      rw [hcomps]
      rfl
    obtain ⟨p, hp, h1, h2, h3⟩ := hspec
      (RiskCategory.financialImpact, analyzeFinancialImpact ev ext.financialUsd)
      [(RiskCategory.behavioralAnomaly, detectBehavioralAnomalies ev ext.behavioral),
       (RiskCategory.reputationRisk, assessReputationRisk ev ext.reputation),
       (RiskCategory.historicalContext, analyzeHistoricalContext ev ext.historical)]
      (by
        intro q hq
        rcases List.mem_cons.mp hq with hq | hq
        · rw [hq]; norm_num [insertionIndex]
        rcases List.mem_cons.mp hq with hq | hq
        · rw [hq]; norm_num [insertionIndex]
        rcases List.mem_cons.mp hq with hq | hq
        · rw [hq]; norm_num [insertionIndex]
        · simp at hq)
      (by simp [List.pairwise_cons, insertionIndex])
    rw [hcomps]
    exact ⟨p, hp, hprim.trans h1, h2, h3⟩

/-! ## Claim C4 — score and confidence bounds -/

/-- Both numbers of a factor result lie in `[0, 1]`. -/
def FactorResult.inRange (r : FactorResult) : Prop :=
  0 ≤ r.score ∧ r.score ≤ 1 ∧ 0 ≤ r.confidence ∧ r.confidence ≤ 1

lemma riskWeights_nonneg (c : RiskCategory) : 0 ≤ Config.riskWeights c := by
  cases c <;> norm_num [Config.riskWeights]

lemma analysisErrorResult_inRange (m : String) : (analysisErrorResult m).inRange := by
  norm_num [analysisErrorResult, FactorResult.inRange]

lemma financialTier_inRange (usd : ℚ) : (financialTier usd).inRange := by
  unfold financialTier
  split_ifs <;> norm_num [FactorResult.inRange]

lemma analyzeFinancialImpact_inRange (ev : EventData) (run : AnalyzerRun ℚ) :
    (analyzeFinancialImpact ev run).inRange := by
  unfold analyzeFinancialImpact
  cases run with
  | raised m => exact analysisErrorResult_inRange m
  | ok usd =>
    cases ev.amount with
    | none => norm_num [FactorResult.inRange]
    | some a => exact financialTier_inRange usd

lemma anomalyValueScore_bounds (avg cur : ℚ) :
    0 ≤ anomalyValueScore avg cur ∧ anomalyValueScore avg cur ≤ 9/10 := by
  unfold anomalyValueScore
  split_ifs <;> norm_num

lemma anomalyContractScore_bounds (contracts : List String) (c : String) :
    0 ≤ anomalyContractScore contracts c ∧ anomalyContractScore contracts c ≤ 3/10 := by
  unfold anomalyContractScore
  split_ifs <;> norm_num

lemma anomalyFreqScore_bounds (freq avg cur : ℚ) :
    0 ≤ anomalyFreqScore freq avg cur ∧ anomalyFreqScore freq avg cur ≤ 2/10 := by
  unfold anomalyFreqScore
  split_ifs <;> norm_num

lemma anomalyAgeScore_bounds (fs : Option ℚ) (now cur : ℚ) :
    0 ≤ anomalyAgeScore fs now cur ∧ anomalyAgeScore fs now cur ≤ 4/10 := by
  unfold anomalyAgeScore
  cases fs with
  | none => norm_num
  | some v =>
    dsimp only
    split_ifs <;> norm_num

lemma anomalyCountScore_bounds (n : Nat) (avg cur : ℚ) :
    0 ≤ anomalyCountScore n avg cur ∧ anomalyCountScore n avg cur ≤ 5/10 := by
  unfold anomalyCountScore
  split_ifs <;> norm_num

lemma calcAnomalyScore_ok_bounds (hist : HistSummary) (cur : ℚ) (c : String) (now : ℚ)
    (s : ℚ) (h : calcAnomalyScore hist cur c now = .ok s) : 0 ≤ s ∧ s ≤ 1 := by
  unfold calcAnomalyScore at h
  split_ifs at h
  injection h with h
  subst h
  constructor
  · refine le_min ?_ zero_le_one
    have h1 := (anomalyValueScore_bounds hist.averageValue cur).1
    have h2 := (anomalyContractScore_bounds hist.transactionsTo c).1
    have h3 := (anomalyFreqScore_bounds hist.frequencyPerDay hist.averageValue cur).1
    have h4 := (anomalyAgeScore_bounds hist.firstSeen now cur).1
    have h5 := (anomalyCountScore_bounds hist.transactionCount hist.averageValue cur).1
    linarith
  · exact min_le_right _ _

lemma calcAnomalyConfidence_bounds (s : ℚ) (n : Nat) (hs : 0 ≤ s) :
    0 ≤ calcAnomalyConfidence s n ∧ calcAnomalyConfidence s n ≤ 1 := by
  unfold calcAnomalyConfidence
  constructor
  · refine le_min (mul_nonneg (mul_nonneg hs (by norm_num)) ?_) zero_le_one
    split_ifs <;> norm_num
  · exact min_le_right _ _

lemma detectBehavioralAnomalies_inRange (ev : EventData)
    (run : AnalyzerRun (HistSummary × ℚ)) : (detectBehavioralAnomalies ev run).inRange := by
  by_cases h : ev.fromAddress = ""
  · simp only [detectBehavioralAnomalies, if_pos h]
    norm_num [FactorResult.inRange]
  · cases run with
    | raised m =>
      simp only [detectBehavioralAnomalies, if_neg h]
      exact analysisErrorResult_inRange m
    | ok pair =>
      obtain ⟨hist, nowTs⟩ := pair
      simp only [detectBehavioralAnomalies, if_neg h]
      cases hsc : calcAnomalyScore hist ((ev.amount.getD 0 : Nat) : ℚ) ev.contractAddress
          nowTs with
      | error m =>
        dsimp only
        exact analysisErrorResult_inRange m
      | ok s =>
        dsimp only
        obtain ⟨hs0, hs1⟩ := calcAnomalyScore_ok_bounds _ _ _ _ _ hsc
        obtain ⟨hc0, hc1⟩ := calcAnomalyConfidence_bounds s hist.transactionsTo.length hs0
        exact ⟨hs0, hs1, hc0, hc1⟩

lemma scanFold_bounds (inds : List (String × Int)) (B : ℚ) :
    ∀ (table : List (String × ℚ × String)) (a : ℚ), 0 ≤ a → a ≤ B →
      (∀ e ∈ table, e.2.1 ≤ B) →
      0 ≤ table.foldl (fun acc e => if getIndicator inds e.1 > 0 then max acc e.2.1 else acc) a
      ∧ table.foldl (fun acc e => if getIndicator inds e.1 > 0 then max acc e.2.1 else acc) a
          ≤ B := by
  intro table
  induction table with
  | nil => intro a ha haB _; exact ⟨ha, haB⟩
  | cons e t ih =>
    intro a ha haB hw
    simp only [List.foldl]
    refine ih _ ?_ ?_ (fun r hr => hw r (List.mem_cons_of_mem e hr))
    · by_cases h : getIndicator inds e.1 > 0
      · rw [if_pos h]; exact le_trans ha (le_max_left a e.2.1)
      · rw [if_neg h]; exact ha
    · by_cases h : getIndicator inds e.1 > 0
      · rw [if_pos h]; exact max_le haB (hw e (List.mem_cons_self e t))
      · rw [if_neg h]; exact haB

lemma mainScanScore_bounds (inds : List (String × Int)) :
    0 ≤ mainScanScore inds ∧ mainScanScore inds ≤ 19/20 := by
  unfold mainScanScore
  refine scanFold_bounds inds (19/20) riskIndicatorTable 0 (le_refl 0) (by norm_num) ?_
  intro e he
  simp only [riskIndicatorTable, List.mem_cons, List.not_mem_nil, or_false] at he
  rcases he with h|h|h|h|h|h|h|h|h|h|h|h|h|h|h|h|h|h <;> subst h <;> norm_num

lemma criticalScanScore_bounds (inds : List (String × Int)) (s : ℚ)
    (hs0 : 0 ≤ s) (hsB : s ≤ 19/20) :
    0 ≤ criticalScanScore inds s ∧ criticalScanScore inds s ≤ 19/20 := by
  unfold criticalScanScore
  have step : ∀ (t : List (String × String)) (a : ℚ), 0 ≤ a → a ≤ 19/20 →
      0 ≤ t.foldl (fun acc c => if getIndicator inds c.1 > 0 then max acc (95/100) else acc) a
      ∧ t.foldl (fun acc c => if getIndicator inds c.1 > 0 then max acc (95/100) else acc) a
          ≤ 19/20 := by
    intro t
    induction t with
    | nil => intro a ha haB; exact ⟨ha, haB⟩
    | cons e t ih =>
      intro a ha haB
      simp only [List.foldl]
      refine ih _ ?_ ?_
      · by_cases h : getIndicator inds e.1 > 0
        · rw [if_pos h]; exact le_trans ha (le_max_left a (95/100))
        · rw [if_neg h]; exact ha
      · by_cases h : getIndicator inds e.1 > 0
        · rw [if_pos h]; exact max_le haB (by norm_num)
        · rw [if_neg h]; exact haB
  exact step criticalIndicatorTable s hs0 hsB

lemma checkAddressReputation_inRange (rf : RepFetch) :
    (checkAddressReputation rf).inRange := by
  unfold checkAddressReputation
  cases rf with
  | raised m => norm_num [FactorResult.inRange]
  | apiError code => norm_num [FactorResult.inRange]
  | okData inds =>
    obtain ⟨h0, h1⟩ := mainScanScore_bounds inds
    obtain ⟨h2, h3⟩ := criticalScanScore_bounds inds _ h0 h1
    refine ⟨h2, le_trans h3 (by norm_num), ?_, ?_⟩ <;>
      (dsimp only; split_ifs <;> norm_num)

lemma assessReputationRisk_inRange (ev : EventData) (run : AnalyzerRun RepFetch) :
    (assessReputationRisk ev run).inRange := by
  unfold assessReputationRisk
  split_ifs with h
  · norm_num [FactorResult.inRange]
  · cases run with
    | raised m => exact analysisErrorResult_inRange m
    | ok rf => exact checkAddressReputation_inRange rf

lemma histAgeScore_bounds (fs : Option ℚ) (now : ℚ) :
    0 ≤ (histAgeScore fs now).1 ∧ (histAgeScore fs now).1 ≤ 3/10 := by
  unfold histAgeScore
  cases fs with
  | none => norm_num
  | some v =>
    dsimp only
    split_ifs <;> norm_num

lemma histCountScore_bounds (n : Nat) :
    0 ≤ (histCountScore n).1 ∧ (histCountScore n).1 ≤ 4/10 := by
  unfold histCountScore
  split_ifs <;> norm_num

lemma histContractsScore_bounds (n : Nat) :
    0 ≤ (histContractsScore n).1 ∧ (histContractsScore n).1 ≤ 2/10 := by
  unfold histContractsScore
  split_ifs <;> norm_num

lemma histValueScore_bounds (t c : ℚ) :
    0 ≤ (histValueScore t c).1 ∧ (histValueScore t c).1 ≤ 3/10 := by
  unfold histValueScore
  split_ifs <;> norm_num

lemma histFreqScore_bounds (f : ℚ) (n : Nat) :
    0 ≤ (histFreqScore f n).1 ∧ (histFreqScore f n).1 ≤ 2/10 := by
  unfold histFreqScore
  split_ifs <;> norm_num

lemma analyzeHistoricalContext_inRange (ev : EventData)
    (run : AnalyzerRun (HistSummary × ℚ)) : (analyzeHistoricalContext ev run).inRange := by
  by_cases h : ev.fromAddress = ""
  · simp only [analyzeHistoricalContext, if_pos h]
    norm_num [FactorResult.inRange]
  · cases run with
    | raised m =>
      simp only [analyzeHistoricalContext, if_neg h]
      exact analysisErrorResult_inRange m
    | ok pair =>
      obtain ⟨hist, nowTs⟩ := pair
      simp only [analyzeHistoricalContext, if_neg h]
      have h1 := histAgeScore_bounds hist.firstSeen nowTs
      have h2 := histCountScore_bounds hist.transactionCount
      have h3 := histContractsScore_bounds hist.uniqueContracts
      have h4 := histValueScore_bounds hist.totalValue ((ev.amount.getD 0 : Nat) : ℚ)
      have h5 := histFreqScore_bounds hist.frequencyPerDay hist.transactionCount
      refine ⟨le_min (by linarith [h1.1, h2.1, h3.1, h4.1, h5.1]) zero_le_one,
        min_le_right _ _, ?_, ?_⟩ <;> (dsimp only; split_ifs <;> norm_num)

lemma analyzeApprovalRisk_inRange (ev : EventData) (run : AnalyzerRun Unit) :
    (analyzeApprovalRisk ev run).inRange := by
  cases run with
  | raised m => exact analysisErrorResult_inRange m
  | ok u =>
    cases hA : ev.approvalAmount with
    | none =>
      simp only [analyzeApprovalRisk, hA]
      norm_num [FactorResult.inRange]
    | some a =>
      simp only [analyzeApprovalRisk, hA]
      split_ifs <;> norm_num [FactorResult.inRange]

/-- Every component of a `riskComponents` list is in range. -/
lemma riskComponents_inRange (ev : EventData) (ext : Ext) :
    ∀ p ∈ riskComponents ev ext, p.2.inRange := by
  intro p hp
  simp only [riskComponents, List.mem_append, List.mem_cons, List.not_mem_nil,
    or_false] at hp
  rcases hp with (hp | hp | hp | hp) | hp
  · subst hp; exact analyzeFinancialImpact_inRange ev ext.financialUsd
  · subst hp; exact detectBehavioralAnomalies_inRange ev ext.behavioral
  · subst hp; exact assessReputationRisk_inRange ev ext.reputation
  · subst hp; exact analyzeHistoricalContext_inRange ev ext.historical
  · by_cases hA : ev.eventType = .approval
    · rw [if_pos hA] at hp
      simp only [List.mem_singleton] at hp
      subst hp; exact analyzeApprovalRisk_inRange ev ext.approval
    · rw [if_neg hA] at hp
      simp at hp

lemma weightedSum_bounds (L : List (RiskCategory × FactorResult))
    (h : ∀ p ∈ L, p.2.inRange) :
    0 ≤ (L.map (fun p => p.2.score * Config.riskWeights p.1)).sum
    ∧ (L.map (fun p => p.2.score * Config.riskWeights p.1)).sum
        ≤ (L.map (fun p => Config.riskWeights p.1)).sum := by
  induction L with
  | nil => simp
  | cons q L ih =>
    obtain ⟨ih0, ih1⟩ := ih (fun p hp => h p (List.mem_cons_of_mem q hp))
    obtain ⟨hs0, hs1, -, -⟩ := h q (List.mem_cons_self q L)
    simp only [List.map_cons, List.sum_cons]
    exact ⟨add_nonneg (mul_nonneg hs0 (riskWeights_nonneg q.1)) ih0,
      add_le_add (mul_le_of_le_one_left (riskWeights_nonneg q.1) hs1) ih1⟩

lemma confSum_bounds (L : List (RiskCategory × FactorResult))
    (h : ∀ p ∈ L, p.2.inRange) :
    0 ≤ (L.map (fun p => p.2.confidence)).sum
    ∧ (L.map (fun p => p.2.confidence)).sum ≤ (L.length : ℚ) := by
  induction L with
  | nil => simp
  | cons q L ih =>
    obtain ⟨ih0, ih1⟩ := ih (fun p hp => h p (List.mem_cons_of_mem q hp))
    obtain ⟨-, -, hc0, hc1⟩ := h q (List.mem_cons_self q L)
    simp only [List.map_cons, List.sum_cons, List.length_cons]
    constructor
    · exact add_nonneg hc0 ih0
    · push_cast
      linarith

/-- C4: the assessment returned by `assess_comprehensive_risk` (with its
outer exception fallback) always has `overall_score ∈ [0,1]` and
`confidence ∈ [0,1]`, for every event and every behaviour of the external
world — including any combination of analyzer exceptions. Arithmetic is
modelled exactly over `ℚ`, where no NaN exists; the two divisions are by
`max(total_weight, 0.001) ≥ 0.001 > 0` and by the component count
`≥ 4 > 0`, so no division by zero arises either. -/
theorem claim_C4_bounds (run : AnalyzerRun (EventData × Ext)) :
    0 ≤ (assessTop run).overallScore ∧ (assessTop run).overallScore ≤ 1
    ∧ 0 ≤ (assessTop run).confidence ∧ (assessTop run).confidence ≤ 1 := by
  cases run with
  | raised m => norm_num [assessTop, errorAssessment]
  | ok pair =>
    obtain ⟨ev, ext⟩ := pair
    have hall := riskComponents_inRange ev ext
    have htwlow : (1:ℚ)/1000
        ≤ ((riskComponents ev ext).map (fun p => Config.riskWeights p.1)).sum := by
      rw [weightSum_eq]; split_ifs <;> norm_num
    have htwpos : (0:ℚ)
        < ((riskComponents ev ext).map (fun p => Config.riskWeights p.1)).sum := by
      rw [weightSum_eq]; split_ifs <;> norm_num
    have hlenpos : (0:ℚ) < ((riskComponents ev ext).length : ℚ) := by
      by_cases hA : ev.eventType = .approval <;> simp [riskComponents, hA]
    obtain ⟨hts0, hts1⟩ := weightedSum_bounds _ hall
    obtain ⟨hcs0, hcs1⟩ := confSum_bounds _ hall
    have hovr : (assessTop (.ok (ev, ext))).overallScore
        = calculateWeightedRiskScore (riskComponents ev ext) := rfl
    have hcnf : (assessTop (.ok (ev, ext))).confidence
        = ((riskComponents ev ext).map (fun p => p.2.confidence)).sum
          / (((riskComponents ev ext).map (fun p => p.2.confidence)).length : ℚ) := rfl
    rw [hovr, hcnf]
    simp only [calculateWeightedRiskScore, List.length_map]
    rw [max_eq_left htwlow]
    refine ⟨div_nonneg hts0 (le_of_lt htwpos), (div_le_one htwpos).mpr hts1,
      div_nonneg hcs0 (le_of_lt hlenpos), (div_le_one hlenpos).mpr hcs1⟩

end PulseProof
